import Mathlib

/-!
Shallow embedding of the decision/planning/execution core of the "universe"
animal-simulation repository, together with proofs settling the frozen claims.

Conventions of the embedding:
* JavaScript numbers are modelled as rationals where the code only performs
  field arithmetic and comparisons (the planning manager: timestamps,
  confidence), and as real numbers where the code calls Math.sqrt /
  Math.atan2 / Math.cos / Math.sin (the action system and the decision
  route's exploration clamp).
* Timestamps are passed explicitly: a JS call to Date.now() inside a method
  becomes a `now` parameter of the Lean function.
* Map lookups returning undefined become Option; JS truthiness of an
  optional numeric field (undefined and 0 are falsy) is `jsTruthy`.
* Console logging and subscriber notification have no observable effect on
  the state and are dropped.
-/

/-- JavaScript truthiness of an optional numeric field: `undefined` (none)
and `0` are falsy, every other number is truthy. -/
def jsTruthy (t : Option ℚ) : Bool :=
  match t with
  | none => false
  | some x => decide (x ≠ 0)

/-- One step of a plan (client-planning-manager.ts, interface PlanStep).
The optional `parameters` bag, `targetPosition`, `requirements` and
`estimatedDuration` fields are not consulted by any of the planning-manager
operations and are omitted. -/
structure PlanStep where
  id : String
  action : String
  priority : ℚ
  turnOffset : ℤ
  expectedBenefit : ℚ
  reason : String
  startedAt : Option ℚ := none
  completedAt : Option ℚ := none
  deriving DecidableEq

/-- A stored plan (client-planning-manager.ts, interface AnimalPlan). -/
structure AnimalPlan where
  animalId : String
  steps : List PlanStep
  createdAt : ℚ
  lastUpdated : ℚ
  planHorizon : ℚ
  currentStepIndex : ℕ
  confidence : ℚ
  planType : String
  deriving DecidableEq

/-- The mutable state of ClientPlanningManager: the `plans` map and the
`planningHistory` map (a missing history key behaves as the empty list,
exactly as the code initialises it on demand). -/
structure PlanningState where
  plans : String → Option AnimalPlan
  planningHistory : String → List AnimalPlan

/-- The empty planning manager (fresh ClientPlanningManager). -/
def emptyPlanningState : PlanningState :=
  { plans := fun _ => none, planningHistory := fun _ => [] }

/-- ClientPlanningManager.storePlan: store the plan under its animalId,
push a copy of it onto the history list, and drop the oldest history entry
once the list exceeds five entries (history.shift()). -/
def storePlan (st : PlanningState) (plan : AnimalPlan) : PlanningState :=
  let history := st.planningHistory plan.animalId ++ [plan]
  let history := if 5 < history.length then history.tail else history
  { plans := fun a => if a = plan.animalId then some plan else st.plans a,
    planningHistory := fun a =>
      if a = plan.animalId then history else st.planningHistory a }

/-- ClientPlanningManager.getPlan. -/
def getPlan (st : PlanningState) (animalId : String) : Option AnimalPlan :=
  st.plans animalId

/-- ClientPlanningManager.getCurrentStep: the step at the cursor, but only
when its turnOffset is exactly zero. -/
def getCurrentStep (st : PlanningState) (animalId : String) : Option PlanStep :=
  match st.plans animalId with
  | none => none
  | some plan =>
    if plan.steps.length ≤ plan.currentStepIndex then none
    else
      match plan.steps[plan.currentStepIndex]? with
      | none => none
      | some currentStep =>
        if currentStep.turnOffset = 0 then some currentStep else none

/-- ClientPlanningManager.isExecutingStep: the cursor step has a truthy
startedAt and a falsy completedAt. -/
def isExecutingStep (st : PlanningState) (animalId : String) : Bool :=
  match st.plans animalId with
  | none => false
  | some plan =>
    if plan.steps.length ≤ plan.currentStepIndex then false
    else
      match plan.steps[plan.currentStepIndex]? with
      | none => false
      | some currentStep =>
        jsTruthy currentStep.startedAt && ! jsTruthy currentStep.completedAt

/-- The minimum delay between plan steps, in milliseconds
(MIN_DELAY_BETWEEN_STEPS = 1000 in canMakeNewDecision). -/
def MIN_DELAY_BETWEEN_STEPS : ℚ := 1000

/-- ClientPlanningManager.canMakeNewDecision, with Date.now() passed as
`now`.  Order of the checks follows the source: no plan, plan complete,
currently executing, then the minimum delay since the previous step's
completion timestamp (JS-truthy check on completedAt). -/
def canMakeNewDecision (st : PlanningState) (animalId : String) (now : ℚ) : Bool :=
  match st.plans animalId with
  | none => true
  | some plan =>
    if plan.steps.length ≤ plan.currentStepIndex then true
    else if isExecutingStep st animalId then false
    else
      match plan.currentStepIndex with
      | 0 => true
      | Nat.succ k =>
        match plan.steps[k]? with
        | none => true
        | some lastStep =>
          match lastStep.completedAt with
          | none => true
          | some t =>
            if t = 0 then true
            else if now - t < MIN_DELAY_BETWEEN_STEPS then false else true

/-- Replace the first element satisfying `p` by its image under `f`
(models finding an object in a JS array and mutating it in place). -/
def updateFirst {α : Type} (p : α → Bool) (f : α → α) : List α → List α
  | [] => []
  | x :: xs => if p x then f x :: xs else x :: updateFirst p f xs

/-- Apply `f` to the element at index `n` (models `arr[n] = f(arr[n])`). -/
def updateNth {α : Type} (f : α → α) : ℕ → List α → List α
  | _, [] => []
  | 0, x :: xs => f x :: xs
  | Nat.succ n, x :: xs => x :: updateNth f n xs

/-- Decrement turnOffset (floored at zero) on every step whose index is at
or after `n` (the for-loop of completeCurrentStep). -/
def decrementTurnOffsets : ℕ → List PlanStep → List PlanStep
  | _, [] => []
  | 0, s :: rest =>
    { s with turnOffset := max 0 (s.turnOffset - 1) } :: decrementTurnOffsets 0 rest
  | Nat.succ n, s :: rest => s :: decrementTurnOffsets n rest

/-- ClientPlanningManager.startStep: find the step with the given id
(Array.prototype.find: first match) and stamp its startedAt. -/
def startStep (st : PlanningState) (animalId stepId : String) (now : ℚ) :
    PlanningState :=
  match st.plans animalId with
  | none => st
  | some plan =>
    let plan :=
      { plan with
        steps := updateFirst (fun s => s.id == stepId)
          (fun s => { s with startedAt := some now }) plan.steps }
    { st with plans := fun a => if a = animalId then some plan else st.plans a }

/-- ClientPlanningManager.completeCurrentStep: stamp completedAt on the
cursor step (when it exists), scale confidence by 1.05 / 0.95 and clamp to
[0.1, 1.0], advance the cursor, decrement turnOffset (floored at 0) on all
steps from the new cursor on, and refresh lastUpdated. -/
def completeCurrentStep (st : PlanningState) (animalId : String)
    (success : Bool) (now : ℚ) : PlanningState :=
  match st.plans animalId with
  | none => st
  | some plan =>
    let plan :=
      match plan.steps[plan.currentStepIndex]? with
      | some _ =>
        { plan with
          steps := updateNth (fun s => { s with completedAt := some now })
            plan.currentStepIndex plan.steps,
          confidence :=
            max 0.1 (min 1.0 (plan.confidence * (if success then 1.05 else 0.95))) }
      | none => plan
    let plan := { plan with currentStepIndex := plan.currentStepIndex + 1 }
    let plan := { plan with steps := decrementTurnOffsets plan.currentStepIndex plan.steps }
    let plan := { plan with lastUpdated := now }
    { st with plans := fun a => if a = animalId then some plan else st.plans a }

/-- ClientPlanningManager.needsNewPlan: no plan, plan complete, confidence
below 0.3, or plan older than ten minutes. -/
def needsNewPlan (st : PlanningState) (animalId : String) (now : ℚ) : Bool :=
  match st.plans animalId with
  | none => true
  | some plan =>
    if plan.steps.length ≤ plan.currentStepIndex then true
    else if plan.confidence < 0.3 then true
    else if 10 * 60 * 1000 < now - plan.createdAt then true
    else false

/-- Outcome of one run of HealthMonitor.handleAnimalDecision for one agent:
gated by canMakeNewDecision, execute the current step, ask the oracle for a
new plan, or fall through to the warning branch with nothing to do. -/
inductive DecisionOutcome
  | skipDecision
  | executeStep (step : PlanStep)
  | createNewPlan
  | noEligibleStep
  deriving DecidableEq

/-- HealthMonitor.handleAnimalDecision, reduced to its control flow over
the planning state: consult canMakeNewDecision first, then getCurrentStep,
then needsNewPlan. -/
def handleAnimalDecision (st : PlanningState) (animalId : String) (now : ℚ) :
    DecisionOutcome :=
  if ! canMakeNewDecision st animalId now then DecisionOutcome.skipDecision
  else
    match getCurrentStep st animalId with
    | some step => DecisionOutcome.executeStep step
    | none =>
      if needsNewPlan st animalId now then DecisionOutcome.createNewPlan
      else DecisionOutcome.noEligibleStep

/-- One decision tick and its effect on the planning state.  The
executeStep branch models executePlanStep followed by executeAnimalAction:
startStep, run the action (whose success is the `success` argument), then
completeCurrentStep.  The createNewPlan branch stores the plan returned by
the oracle (abstracted as `oraclePlan`).  The two remaining branches return
without touching any state. -/
def decisionTick (st : PlanningState) (animalId : String) (now : ℚ)
    (success : Bool) (oraclePlan : AnimalPlan) :
    DecisionOutcome × PlanningState :=
  match handleAnimalDecision st animalId now with
  | DecisionOutcome.skipDecision => (DecisionOutcome.skipDecision, st)
  | DecisionOutcome.executeStep step =>
    (DecisionOutcome.executeStep step,
      completeCurrentStep (startStep st animalId step.id now) animalId success now)
  | DecisionOutcome.createNewPlan =>
    (DecisionOutcome.createNewPlan, storePlan st oraclePlan)
  | DecisionOutcome.noEligibleStep => (DecisionOutcome.noEligibleStep, st)

/-- Run a sequence of decision ticks at the given times, collecting the
outcome of each tick. -/
def runDecisionTicks (animalId : String) (success : Bool)
    (oraclePlan : AnimalPlan) :
    PlanningState → List ℚ → PlanningState × List DecisionOutcome
  | st, [] => (st, [])
  | st, t :: ts =>
    let r := decisionTick st animalId t success oraclePlan
    let rest := runDecisionTicks animalId success oraclePlan r.2 ts
    (rest.1, r.1 :: rest.2)

/-- A 3D position with facing (types/animal.ts, AnimalPosition). -/
structure AnimalPosition where
  x : ℝ
  y : ℝ
  z : ℝ
  rotation : ℝ

/-- A 3D point without facing (resource positions). -/
structure Position3 where
  x : ℝ
  y : ℝ
  z : ℝ

/-- The four personality scalars of the DNA (each generated in 1..100). -/
structure Personality where
  aggressive : ℝ
  playful : ℝ
  cautious : ℝ
  nurturing : ℝ

/-- Genetic traits (dna-system.ts); the six traits are generated in 1..100
and size in 0.5..2.  Color, generation and parent ids play no role in any
claim and are omitted. -/
structure AnimalDNA where
  intelligence : ℝ
  agility : ℝ
  strength : ℝ
  social : ℝ
  curiosity : ℝ
  resilience : ℝ
  size : ℝ
  personality : Personality

/-- Survival stats, each intended to stay in 0..100. -/
structure AnimalStats where
  health : ℝ
  hunger : ℝ
  energy : ℝ
  happiness : ℝ
  thirst : ℝ

/-- An inventory item (types/animal.ts InventoryItem). -/
structure InventoryItem where
  id : String
  type : String
  name : String
  quantity : ℝ
  quality : ℝ
  harvestedAt : ℝ

/-- An agent's inventory. -/
structure Inventory where
  items : List InventoryItem
  maxCapacity : ℝ
  currentWeight : ℝ

/-- The agent record, restricted to the fields the action system, the
degradation step and the fallback planner read (birthTime, lifespan,
lastHealthCheck and isAlive are bookkeeping fields no claim depends on;
elapsed time since the last health check is passed explicitly to
degradeStats). -/
structure Animal where
  id : String
  name : String
  dna : AnimalDNA
  stats : AnimalStats
  position : AnimalPosition
  inventory : Inventory
  age : ℝ
  currentAction : String

/-- The optional per-stat changes carried by an action result; a missing
field leaves the stat untouched when merged by the state store. -/
structure StatChanges where
  health : Option ℝ := none
  hunger : Option ℝ := none
  energy : Option ℝ := none
  happiness : Option ℝ := none
  thirst : Option ℝ := none

/-- The structured result of an action handler (types/animal.ts
ActionResult). -/
structure ActionResult where
  success : Bool
  message : String
  statChanges : Option StatChanges := none
  newPosition : Option AnimalPosition := none
  consumedItem : Option InventoryItem := none
  harvestedItem : Option InventoryItem := none
  resourceId : Option String := none
  duration : ℝ

/-- A resource entry of the per-agent perception snapshot, restricted to
the fields executeHarvest reads. -/
structure NearbyResource where
  id : String
  type : String
  position : Position3
  quantity : ℝ
  quality : ℝ
  harvestable : Bool

/-- Animals can harvest within this radius (health-monitor.ts,
HARVEST_RADIUS = 4). -/
def HARVEST_RADIUS : ℝ := 4

/-- MXPActionSystem.executeMove.  Energy cost is
config.move.energyCost = 5 times distance/10 times body size, capped at
the current energy. -/
noncomputable def executeMove (animal : Animal) (targetX targetZ speed : ℝ) :
    ActionResult :=
  let agilityMultiplier := animal.dna.agility / 100
  let actualSpeed := speed * agilityMultiplier
  let distance := Real.sqrt ((targetX - animal.position.x) ^ 2 +
    (targetZ - animal.position.z) ^ 2)
  let energyCost := min (5 * (distance / 10) * animal.dna.size) animal.stats.energy
  if animal.stats.energy < energyCost then
    { success := false, message := "is too tired to move that far", duration := 1000 }
  else
    { success := true
      message := "moved to new location"
      statChanges := some { energy := some (max 0 (animal.stats.energy - energyCost)) }
      newPosition := some
        { x := targetX, y := animal.position.y, z := targetZ,
          rotation := Complex.arg
            ⟨targetX - animal.position.x, targetZ - animal.position.z⟩ }
      duration := max 2000 (distance * 1000 / actualSpeed) }

/-- MXPActionSystem.executeEat: only allowed from inventory; the first item
of type food with positive quantity is consumed.  Gains scale with the
item's quality (config.eat: hungerReduction 20, energyGain 10). -/
noncomputable def executeEat (animal : Animal) : ActionResult :=
  match animal.inventory.items.find?
      (fun item => decide (item.type = "food" ∧ 0 < item.quantity)) with
  | none =>
    { success := false, message := "has no food in their inventory to eat",
      duration := 1000 }
  | some foodItem =>
    let actualQuality := foodItem.quality / 100
    let hungerReduction := 20 * actualQuality
    let energyGain := 10 * actualQuality
    let healthGain : ℝ := if 1 < actualQuality then 5 else 2
    { success := true
      message := "enjoyed eating from their inventory"
      statChanges := some
        { hunger := some (max 0 (animal.stats.hunger - hungerReduction))
          energy := some (min 100 (animal.stats.energy + energyGain))
          health := some (min 100 (animal.stats.health + healthGain))
          happiness := some (min 100 (animal.stats.happiness + 5)) }
      consumedItem := some { foodItem with quantity := 1 }
      duration := 5000 + actualQuality * 2000 }

/-- MXPActionSystem.executeDrink: same pattern with water items
(config.drink: thirstReduction 25, healthGain 5). -/
noncomputable def executeDrink (animal : Animal) : ActionResult :=
  match animal.inventory.items.find?
      (fun item => decide (item.type = "water" ∧ 0 < item.quantity)) with
  | none =>
    { success := false, message := "has no water in their inventory to drink",
      duration := 1000 }
  | some waterItem =>
    let actualQuality := waterItem.quality / 100
    let thirstReduction := 25 * actualQuality
    let healthGain := 5 * actualQuality
    { success := true
      message := "quenched their thirst with stored water"
      statChanges := some
        { thirst := some (max 0 (animal.stats.thirst - thirstReduction))
          health := some (min 100 (animal.stats.health + healthGain)) }
      consumedItem := some { waterItem with quantity := 1 }
      duration := 3000 }

/-- MXPActionSystem.executeSleep (config.sleep: energyGain 40,
healthGain 15, duration 10000), scaled by the comfort/safety parameters. -/
noncomputable def executeSleep (animal : Animal) (comfort safety : ℝ) :
    ActionResult :=
  let energyGain := 40 * comfort
  let healthGain := 15 * safety
  { success := true
    message := "is sleeping peacefully"
    statChanges := some
      { energy := some (min 100 (animal.stats.energy + energyGain))
        health := some (min 100 (animal.stats.health + healthGain))
        happiness := some (min 100 (animal.stats.happiness + comfort * 5)) }
    duration := 10000 * (2 - comfort) }

/-- MXPActionSystem.executePlay (config.play: happinessGain 20,
energyCost 15). -/
noncomputable def executePlay (animal : Animal) (playmatesCount : ℕ)
    (toyQuality : ℝ) : ActionResult :=
  let socialMultiplier : ℝ := if 0 < playmatesCount then 1.5 else 1
  let personalityMultiplier := animal.dna.personality.playful / 100
  let happinessGain := 20 * socialMultiplier * personalityMultiplier * toyQuality
  let energyCost := 15 / personalityMultiplier
  { success := true
    message := "had a wonderful time playing"
    statChanges := some
      { happiness := some (min 100 (animal.stats.happiness + happinessGain))
        energy := some (max 0 (animal.stats.energy - energyCost)) }
    duration := 8000 + playmatesCount * 2000 }

/-- MXPActionSystem.executeWork (config.work: energyCost 25,
happinessGain 10). -/
noncomputable def executeWork (animal : Animal) (difficulty : ℝ) :
    ActionResult :=
  let intelligenceMultiplier := animal.dna.intelligence / 100
  let strengthMultiplier := animal.dna.strength / 100
  let effectiveness := (intelligenceMultiplier + strengthMultiplier) / 2
  let energyCost := 25 * difficulty / effectiveness
  if animal.stats.energy < energyCost then
    { success := false, message := "is too tired to work effectively",
      duration := 2000 }
  else
    { success := true
      message := "completed work"
      statChanges := some
        { energy := some (max 0 (animal.stats.energy - energyCost))
          happiness := some (min 100 (animal.stats.happiness + 10 * effectiveness)) }
      duration := 15000 * difficulty }

/-- MXPActionSystem.executeExplore.  When the oracle supplied an
exploration target it becomes the destination; otherwise the exploration
subsystem generates one, modelled here by the `fallbackPos` argument
(the discovery/memory bookkeeping of the handler only affects the message
and the memory store, not the returned stat changes). -/
noncomputable def executeExplore (animal : Animal)
    (explorationTarget : Option (ℝ × ℝ)) (fallbackPos : AnimalPosition) :
    ActionResult :=
  let curiosityMultiplier := animal.dna.curiosity / 100
  let newPosition : AnimalPosition :=
    match explorationTarget with
    | some t =>
      { x := t.1, y := animal.position.y, z := t.2,
        rotation := Complex.arg
          ⟨t.1 - animal.position.x, t.2 - animal.position.z⟩ }
    | none => fallbackPos
  let distance := Real.sqrt ((newPosition.x - animal.position.x) ^ 2 +
    (newPosition.z - animal.position.z) ^ 2)
  let energyCost := min (15 + distance * 2) (animal.stats.energy * 0.3)
  let happiness := 10 * curiosityMultiplier +
    (if explorationTarget.isSome then 5 else 3)
  { success := true
    message := "explored"
    statChanges := some
      { happiness := some (min 100 (animal.stats.happiness + happiness))
        energy := some (max 0 (animal.stats.energy - energyCost)) }
    newPosition := some newPosition
    duration := 8000 + distance * 500 }

/-- MXPActionSystem.executeSocialize. -/
noncomputable def executeSocialize (animal : Animal) (companionsCount : ℕ) :
    ActionResult :=
  let socialMultiplier := animal.dna.social / 100
  let happinessGain := 25 * socialMultiplier * (1 + companionsCount * 0.2)
  { success := true
    message := "enjoyed socializing"
    statChanges := some
      { happiness := some (min 100 (animal.stats.happiness + happinessGain))
        energy := some (max 0 (animal.stats.energy - 5)) }
    duration := 6000 + companionsCount * 2000 }

/-- MXPActionSystem.executeMate. -/
noncomputable def executeMate (animal : Animal) (hasPartner : Bool) :
    ActionResult :=
  if ! hasPartner then
    { success := false, message := "could not find a suitable mate",
      duration := 2000 }
  else
    { success := true
      message := "is engaging in mating behavior"
      statChanges := some
        { happiness := some (min 100 (animal.stats.happiness + 30))
          energy := some (max 0 (animal.stats.energy - 30)) }
      duration := 12000 }

/-- MXPActionSystem.executeHarvest: re-validates at execution time that the
resource is present in the snapshot, harvestable with positive quantity,
within HARVEST_RADIUS, that energy suffices and that the harvested weight
fits the inventory.  The harvested item's id and harvestedAt timestamp are
generated from Date.now()/Math.random() in the source and play no role in
any claim; they are fixed here. -/
noncomputable def executeHarvest (animal : Animal) (resourceId : Option String)
    (nearbyResources : List NearbyResource) : ActionResult :=
  match resourceId with
  | none =>
    { success := false, message := "could not find anything to harvest",
      duration := 2000 }
  | some rid =>
    match nearbyResources.find? (fun r => r.id == rid) with
    | none =>
      { success := false, message := "could not harvest this resource",
        duration := 2000 }
    | some resource =>
      if (! resource.harvestable : Bool) ∨ resource.quantity ≤ 0 then
        { success := false, message := "could not harvest this resource",
          duration := 2000 }
      else
        let distance := Real.sqrt ((resource.position.x - animal.position.x) ^ 2 +
          (resource.position.z - animal.position.z) ^ 2)
        if HARVEST_RADIUS < distance then
          { success := false,
            message := "is too far from the resource to harvest it",
            duration := 1000 }
        else
          let strengthMultiplier := animal.dna.strength / 100
          let intelligenceMultiplier := animal.dna.intelligence / 100
          let effectiveness := (strengthMultiplier + intelligenceMultiplier) / 2
          let energyCost : ℝ := 15 + (if resource.type = "stone" then 10 else 0)
          if animal.stats.energy < energyCost then
            { success := false, message := "is too tired to harvest",
              duration := 1000 }
          else
            let baseAmount : ℝ := ⌊1 + effectiveness * 2⌋
            let harvestAmount := min baseAmount resource.quantity
            let currentWeight := animal.inventory.currentWeight
            let itemWeight := harvestAmount *
              (if resource.type = "stone" then 3
               else if resource.type = "wood" then 2 else 1)
            if animal.inventory.maxCapacity < currentWeight + itemWeight then
              { success := false,
                message := "inventory is too full to carry more",
                duration := 1000 }
            else
              { success := true
                message := "harvested"
                statChanges := some
                  { energy := some (max 0 (animal.stats.energy - energyCost))
                    happiness := some (min 100 (animal.stats.happiness + 5)) }
                harvestedItem := some
                  { id := "item_harvested",
                    type := if resource.type = "berries" then "food" else resource.type,
                    name := resource.type,
                    quantity := harvestAmount,
                    quality := resource.quality,
                    harvestedAt := 0 }
                resourceId := some rid
                duration := 3000 + harvestAmount * 1000 }

/-- MXPActionSystem.executeIdle. -/
noncomputable def executeIdle (animal : Animal) : ActionResult :=
  { success := true
    message := "is resting and observing their surroundings"
    statChanges := some
      { energy := some (min 100 (animal.stats.energy + 3))
        happiness := some (min 100 (animal.stats.happiness + 1)) }
    duration := 5000 }

/-- An action invocation: the action name of the closed vocabulary
together with the parameters the corresponding handler reads (unknown
action names route to idle in the source dispatch, so idle also stands for
them). -/
inductive ActionInvocation
  | idle
  | moving (targetX targetZ speed : ℝ)
  | eating
  | drinking
  | sleeping (comfort safety : ℝ)
  | playing (playmatesCount : ℕ) (toyQuality : ℝ)
  | working (difficulty : ℝ)
  | exploring (target : Option (ℝ × ℝ)) (fallbackPos : AnimalPosition)
  | socializing (companionsCount : ℕ)
  | mating (hasPartner : Bool)
  | harvesting (resourceId : Option String) (nearbyResources : List NearbyResource)

/-- MXPActionSystem.executeAction: dispatch to the handler. -/
noncomputable def executeAction (animal : Animal) : ActionInvocation → ActionResult
  | ActionInvocation.idle => executeIdle animal
  | ActionInvocation.moving tx tz s => executeMove animal tx tz s
  | ActionInvocation.eating => executeEat animal
  | ActionInvocation.drinking => executeDrink animal
  | ActionInvocation.sleeping c s => executeSleep animal c s
  | ActionInvocation.playing n t => executePlay animal n t
  | ActionInvocation.working d => executeWork animal d
  | ActionInvocation.exploring t f => executeExplore animal t f
  | ActionInvocation.socializing n => executeSocialize animal n
  | ActionInvocation.mating p => executeMate animal p
  | ActionInvocation.harvesting rid res => executeHarvest animal rid res

/-- Spread-merge of the optional stat changes over the current stats
(the `...animal.stats, ...actionResult.statChanges` object spread in
AnimalStateManager.updateFromActionResult). -/
def applyStatChanges (stats : AnimalStats) (sc : StatChanges) : AnimalStats :=
  { health := sc.health.getD stats.health
    hunger := sc.hunger.getD stats.hunger
    energy := sc.energy.getD stats.energy
    happiness := sc.happiness.getD stats.happiness
    thirst := sc.thirst.getD stats.thirst }

/-- AnimalStateManager.updateFromActionResult for one agent record: set the
action label, merge the stat changes when present, replace the position
when present.  (The store-level variant returns false for a missing agent
id; here the record is given directly.) -/
def updateFromActionResult (animal : Animal) (actionResult : ActionResult)
    (newAction : String) : Animal :=
  let animal := { animal with currentAction := newAction }
  let animal :=
    match actionResult.statChanges with
    | some sc => { animal with stats := applyStatChanges animal.stats sc }
    | none => animal
  match actionResult.newPosition with
  | some p => { animal with position := p }
  | none => animal

/-- AnimalLifecycle.degradeStats, with the elapsed minutes since the last
health check passed explicitly.  Degradation rates per minute: hunger 1.5,
thirst 2.0, energy 0.8, happiness 0.5, health 0.1; scaled by age and by
resilience. -/
noncomputable def degradeStats (animal : Animal) (minutesElapsed : ℝ) :
    AnimalStats :=
  let ageMultiplier := 1 + animal.age * 0.5
  let resilienceMultiplier := 1 - animal.dna.resilience / 100 * 0.3
  let totalMultiplier := ageMultiplier * resilienceMultiplier
  { health := max 0 (animal.stats.health - 0.1 * minutesElapsed * totalMultiplier)
    hunger := min 100 (animal.stats.hunger + 1.5 * minutesElapsed * totalMultiplier)
    energy := max 0 (animal.stats.energy - 0.8 * minutesElapsed * totalMultiplier)
    happiness := max 0 (animal.stats.happiness - 0.5 * minutesElapsed * totalMultiplier)
    thirst := min 100 (animal.stats.thirst + 2.0 * minutesElapsed * totalMultiplier) }

/-- One mutation of an agent record as performed through the state store:
either a stat-degradation write (updateStats with degradeStats output) or
the application of an action result (updateFromActionResult). -/
inductive AgentOp
  | degrade (minutesElapsed : ℝ)
  | act (inv : ActionInvocation) (newAction : String)

/-- Apply one agent operation. -/
noncomputable def applyAgentOp (animal : Animal) : AgentOp → Animal
  | AgentOp.degrade m => { animal with stats := degradeStats animal m }
  | AgentOp.act inv newAction =>
    updateFromActionResult animal (executeAction animal inv) newAction

/-- Apply a sequence of agent operations. -/
noncomputable def applyAgentOps : Animal → List AgentOp → Animal
  | animal, [] => animal
  | animal, op :: ops => applyAgentOps (applyAgentOp animal op) ops

/-- All five stats lie in the closed interval [0,100]. -/
def StatsInRange (s : AnimalStats) : Prop :=
  0 ≤ s.health ∧ s.health ≤ 100 ∧
  0 ≤ s.hunger ∧ s.hunger ≤ 100 ∧
  0 ≤ s.energy ∧ s.energy ≤ 100 ∧
  0 ≤ s.happiness ∧ s.happiness ≤ 100 ∧
  0 ≤ s.thirst ∧ s.thirst ≤ 100

/-- DNA values in the ranges the generator produces: the six traits and the
four personality scalars in 1..100, size in 0.5..2
(DNASystem.generateRandomDNA / breedDNA). -/
def WFDNA (d : AnimalDNA) : Prop :=
  (1 ≤ d.intelligence ∧ d.intelligence ≤ 100) ∧
  (1 ≤ d.agility ∧ d.agility ≤ 100) ∧
  (1 ≤ d.strength ∧ d.strength ≤ 100) ∧
  (1 ≤ d.social ∧ d.social ≤ 100) ∧
  (1 ≤ d.curiosity ∧ d.curiosity ≤ 100) ∧
  (1 ≤ d.resilience ∧ d.resilience ≤ 100) ∧
  (1 ≤ d.personality.playful ∧ d.personality.playful ≤ 100) ∧
  (0.5 ≤ d.size ∧ d.size ≤ 2)

/-- Inventory items carry a quality in 0..100 (resource quality range). -/
def WFInventory (inv : Inventory) : Prop :=
  ∀ i ∈ inv.items, 0 ≤ i.quality ∧ i.quality ≤ 100

/-- Fixed agent data in the ranges the lifecycle maintains. -/
def WFAnimal (a : Animal) : Prop :=
  WFDNA a.dna ∧ WFInventory a.inventory ∧ 0 ≤ a.age ∧ a.age ≤ 1

/-- Action parameters within their intended ranges: nonnegative
comfort/safety, toy quality and work difficulty, nonnegative elapsed time
for degradation. -/
def WFInvocation : ActionInvocation → Prop
  | ActionInvocation.sleeping c s => 0 ≤ c ∧ 0 ≤ s
  | ActionInvocation.playing _ t => 0 ≤ t
  | ActionInvocation.working d => 0 ≤ d
  | _ => True

/-- Wellformedness of one agent operation. -/
def WFAgentOp : AgentOp → Prop
  | AgentOp.degrade m => 0 ≤ m
  | AgentOp.act inv _ => WFInvocation inv

/-- A world resource node (game-manager.ts, interface WorldResource). -/
structure WorldResource where
  id : String
  type : String
  position : Position3
  quantity : ℝ
  harvestable : Bool
  regeneratesOverTime : Bool
  quality : ℝ

/-- GameManager.harvestResource: find the node, fail when it is missing,
not harvestable, or holds less than the requested amount; otherwise deduct
the amount.  (The item record built from the node on success carries no
information a claim depends on beyond the success flag.) -/
noncomputable def harvestResource (resources : List WorldResource) (resourceId : String)
    (amount : ℝ) : Bool × List WorldResource :=
  match resources.find? (fun r => r.id == resourceId) with
  | none => (false, resources)
  | some resource =>
    if (! resource.harvestable : Bool) ∨ resource.quantity < amount then
      (false, resources)
    else
      (true, updateFirst (fun r => r.id == resourceId)
        (fun r => { r with quantity := r.quantity - amount }) resources)

/-- GameManager.consumeResource: like harvest but without the harvestable
check. -/
noncomputable def consumeResource (resources : List WorldResource) (resourceId : String)
    (amount : ℝ) : Bool × List WorldResource :=
  match resources.find? (fun r => r.id == resourceId) with
  | none => (false, resources)
  | some resource =>
    if resource.quantity < amount then (false, resources)
    else
      (true, updateFirst (fun r => r.id == resourceId)
        (fun r => { r with quantity := r.quantity - amount }) resources)

/-- GameManager.regenerateResources: each regenerating node below its
type-specific threshold gains a fresh Math.random() draw times a
type-specific factor; `rand` supplies the draw for each node id. -/
noncomputable def regenerateResources (resources : List WorldResource) (rand : String → ℝ) :
    List WorldResource :=
  resources.map fun resource =>
    if resource.regeneratesOverTime then
      if resource.type = "food" ∧ resource.quantity < 20 then
        { resource with quantity := resource.quantity + rand resource.id * 30 }
      else if resource.type = "water" ∧ resource.quantity < 50 then
        { resource with quantity := resource.quantity + rand resource.id * 100 }
      else if resource.type = "berries" ∧ resource.quantity < 5 then
        { resource with quantity := resource.quantity + rand resource.id * 15 }
      else resource
    else resource

/-- One operation of the world resource registry. -/
inductive RegistryOp
  | harvest (resourceId : String) (amount : ℝ)
  | consume (resourceId : String) (amount : ℝ)
  | regenerate (rand : String → ℝ)

/-- Apply one registry operation. -/
noncomputable def applyRegistryOp (resources : List WorldResource) :
    RegistryOp → List WorldResource
  | RegistryOp.harvest rid amount => (harvestResource resources rid amount).2
  | RegistryOp.consume rid amount => (consumeResource resources rid amount).2
  | RegistryOp.regenerate rand => regenerateResources resources rand

/-- Apply a sequence of registry operations. -/
noncomputable def applyRegistryOps : List WorldResource → List RegistryOp → List WorldResource
  | resources, [] => resources
  | resources, op :: ops => applyRegistryOps (applyRegistryOp resources op) ops

/-- Wellformed registry operations: harvest/consume amounts are the
nonnegative quantities the action system passes, and Math.random() draws
lie in [0,1). -/
def WFRegistryOp : RegistryOp → Prop
  | RegistryOp.harvest _ amount => 0 ≤ amount
  | RegistryOp.consume _ amount => 0 ≤ amount
  | RegistryOp.regenerate rand => ∀ s, 0 ≤ rand s ∧ rand s < 1

/-- The ceiling regeneration drives a node's quantity toward: threshold
plus maximal increment (food: 20 + 30, water: 50 + 100, berries: 5 + 15);
non-regenerating types never gain quantity. -/
def regenCeiling (t : String) : ℝ :=
  if t = "food" then 50 else if t = "water" then 150
  else if t = "berries" then 20 else 0

/-- The harvest path of HealthMonitor.executeAnimalAction: run the harvest
handler against the perception snapshot and, on success, apply the
harvested quantity to the world registry via GameManager.harvestResource
(the inventory insertion that follows does not touch the registry). -/
noncomputable def harvestFlow (animal : Animal) (resourceId : String)
    (nearbyResources : List NearbyResource) (world : List WorldResource) :
    ActionResult × List WorldResource :=
  let result := executeHarvest animal (some resourceId) nearbyResources
  if result.success then
    match result.harvestedItem, result.resourceId with
    | some item, some rid => (result, (harvestResource world rid item.quantity).2)
    | _, _ => (result, world)
  else (result, world)

/-- The exploration-target clamp of the decision route (route.ts POST,
lines 404-429): a finite numeric target within 20 units of the current
position is kept; a farther target is replaced by the point 20 units from
the position along the bearing of the target (Math.atan2(z, x) is the
argument of the complex number x + z i). -/
noncomputable def clampExplorationTarget (posX posZ targetX targetZ : ℝ) :
    ℝ × ℝ :=
  let distance := Real.sqrt ((targetX - posX) ^ 2 + (targetZ - posZ) ^ 2)
  if distance ≤ 20 then (targetX, targetZ)
  else
    let angle := Complex.arg ⟨targetX - posX, targetZ - posZ⟩
    (posX + Real.cos angle * 20, posZ + Real.sin angle * 20)

/-- AnimalAI.createFallbackPlan: the deterministic rule-based fallback plan
built purely from the agent's stats and inventory.  Step ids interpolate
Date.now(); the `parameters` bag of the building step is omitted from the
PlanStep embedding (no planning-manager operation reads it). -/
noncomputable def createFallbackPlan (animal : Animal) (now : ℚ) : AnimalPlan :=
  let urgent0 : List PlanStep := []
  let planType0 := "survival"
  let urgent1 :=
    if 70 < animal.stats.thirst then
      if animal.inventory.items.any
          (fun item => decide (item.type = "water" ∧ 0 < item.quantity)) then
        urgent0 ++ [{ id := "step_" ++ toString now ++ "_0",
                      action := "drinking", priority := 10, turnOffset := 0,
                      expectedBenefit := 25, reason := "Urgent: quench thirst" }]
      else
        urgent0 ++ [{ id := "step_" ++ toString now ++ "_0",
                      action := "exploring", priority := 9, turnOffset := 0,
                      expectedBenefit := 20, reason := "Find water source" }]
    else urgent0
  let urgent2 :=
    if 70 < animal.stats.hunger then
      if animal.inventory.items.any
          (fun item => decide ((item.type = "food" ∨ item.type = "berries") ∧
            0 < item.quantity)) then
        urgent1 ++ [{ id := "step_" ++ toString now ++ "_" ++ toString urgent1.length,
                      action := "eating", priority := 10,
                      turnOffset := urgent1.length,
                      expectedBenefit := 25, reason := "Urgent: eat food" }]
      else
        urgent1 ++ [{ id := "step_" ++ toString now ++ "_" ++ toString urgent1.length,
                      action := "exploring", priority := 9,
                      turnOffset := urgent1.length,
                      expectedBenefit := 20, reason := "Find food source" }]
    else urgent1
  let result3 :=
    if animal.stats.energy < 30 then
      if animal.inventory.items.any
            (fun item => decide (item.type = "stone" ∧ 2 ≤ item.quantity)) ∧
          animal.inventory.items.any
            (fun item => decide (item.type = "wood" ∧ 2 ≤ item.quantity)) then
        (urgent2 ++ [{ id := "step_" ++ toString now ++ "_" ++ toString urgent2.length,
                       action := "building", priority := 10,
                       turnOffset := urgent2.length,
                       expectedBenefit := 40,
                       reason := "Build shelter to enable sleeping" }], "building")
      else
        (urgent2 ++ [{ id := "step_" ++ toString now ++ "_" ++ toString urgent2.length,
                       action := "exploring", priority := 8,
                       turnOffset := urgent2.length,
                       expectedBenefit := 15,
                       reason := "Find materials for shelter" }], planType0)
    else (urgent2, planType0)
  let result4 :=
    if result3.1 = [] then
      ([{ id := "step_" ++ toString now ++ "_0",
          action := "exploring", priority := 5, turnOffset := 0,
          expectedBenefit := 10, reason := "General exploration" }], "exploration")
    else result3
  { animalId := animal.id
    steps := result4.1
    createdAt := now
    lastUpdated := now
    planHorizon := result4.1.length
    currentStepIndex := 0
    confidence := 0.6
    planType := result4.2 }

/-- Concrete previous plan for the C2 counterexample. -/
def planC2q : AnimalPlan :=
  { animalId := "a", steps := [], createdAt := 0, lastUpdated := 0,
    planHorizon := 1, currentStepIndex := 0, confidence := 0.8,
    planType := "survival" }

/-- Concrete new plan for the C2 counterexample: its cursor is 3, so a
cursor reset by storePlan would be observable. -/
def planC2p : AnimalPlan :=
  { animalId := "a", steps := [], createdAt := 10, lastUpdated := 10,
    planHorizon := 1, currentStepIndex := 3, confidence := 0.7,
    planType := "exploration" }

/-- Concrete plan step for the C1 counterexample (a one-step plan). -/
def stepC1 : PlanStep :=
  { id := "s1", action := "idle", priority := 5, turnOffset := 0,
    expectedBenefit := 1, reason := "rest" }

/-- Concrete one-step plan for the C1 counterexample. -/
def planC1 : AnimalPlan :=
  { animalId := "a", steps := [stepC1], createdAt := 0, lastUpdated := 0,
    planHorizon := 1, currentStepIndex := 0, confidence := 1,
    planType := "survival" }

/-- C1 counterexample state: plan stored, its only step started at t=100
and completed at t=200. -/
def stC1 : PlanningState :=
  completeCurrentStep
    (startStep (storePlan emptyPlanningState planC1) "a" "s1" 100) "a" true 200

/-- Concrete steps and plan for the C1/C7 witnesses (two steps, the second
one scheduled one turn ahead). -/
def stepC7a : PlanStep :=
  { id := "s1", action := "harvesting", priority := 9, turnOffset := 0,
    expectedBenefit := 20, reason := "gather" }

/-- Second step of the witness plan. -/
def stepC7b : PlanStep :=
  { id := "s2", action := "eating", priority := 10, turnOffset := 1,
    expectedBenefit := 25, reason := "eat" }

/-- Two-step witness plan. -/
def planC7 : AnimalPlan :=
  { animalId := "a", steps := [stepC7a, stepC7b], createdAt := 0,
    lastUpdated := 0, planHorizon := 2, currentStepIndex := 0,
    confidence := 1, planType := "survival" }

/-- Concrete future-scheduled step for the C10 witness. -/
def stepC10 : PlanStep :=
  { id := "s1", action := "building", priority := 8, turnOffset := 1,
    expectedBenefit := 15, reason := "later" }

/-- Concrete plan for the C10 witness: its first (current) step is
scheduled one turn in the future and has not been started. -/
def planC10 : AnimalPlan :=
  { animalId := "a", steps := [stepC10],
    createdAt := 0, lastUpdated := 0, planHorizon := 1,
    currentStepIndex := 0, confidence := 0.9, planType := "building" }

/-- Concrete oracle plan argument for the C10 witness (never stored under
the stall conditions). -/
def planC10oracle : AnimalPlan :=
  { animalId := "a", steps := [], createdAt := 0, lastUpdated := 0,
    planHorizon := 0, currentStepIndex := 0, confidence := 0.7,
    planType := "mixed" }

/-- A mid-range DNA record used by the concrete agents of several claims. -/
noncomputable def dnaMid : AnimalDNA :=
  { intelligence := 50, agility := 50, strength := 50, social := 50,
    curiosity := 50, resilience := 50, size := 1,
    personality := { aggressive := 50, playful := 50, cautious := 50,
                     nurturing := 50 } }

/-- The C3 scenario agent: thirst 80, hunger 20, energy 90, empty
inventory.  (The scenario's visible water node within harvest radius plays
no role: createFallbackPlan never reads the world state.) -/
noncomputable def animalC3 : Animal :=
  { id := "a1", name := "Zara", dna := dnaMid,
    stats := { health := 90, hunger := 20, energy := 90, happiness := 60,
               thirst := 80 },
    position := { x := 0, y := 0, z := 0, rotation := 0 },
    inventory := { items := [], maxCapacity := 10, currentWeight := 0 },
    age := 0.2, currentAction := "idle" }

/-- Concrete food item for the C6 witness. -/
noncomputable def itemFoodC6 : InventoryItem :=
  { id := "i1", type := "food", name := "food", quantity := 2, quality := 50,
    harvestedAt := 0 }

/-- Concrete water item for the C6 witness. -/
noncomputable def itemWaterC6 : InventoryItem :=
  { id := "i2", type := "water", name := "water", quantity := 1,
    quality := 80, harvestedAt := 0 }

/-- C6 witness agent with an empty inventory. -/
noncomputable def animalC6empty : Animal :=
  { id := "a2", name := "Pip", dna := dnaMid,
    stats := { health := 80, hunger := 40, energy := 70, happiness := 60,
               thirst := 50 },
    position := { x := 0, y := 0, z := 0, rotation := 0 },
    inventory := { items := [], maxCapacity := 10, currentWeight := 0 },
    age := 0.3, currentAction := "idle" }

/-- C6 witness agent holding one food and one water item. -/
noncomputable def animalC6stocked : Animal :=
  { animalC6empty with
    inventory := { items := [itemFoodC6, itemWaterC6], maxCapacity := 10,
                   currentWeight := 3 } }

/-- C6 counterexample agent: hunger already at 0 while holding food. -/
noncomputable def animalC6ce : Animal :=
  { animalC6empty with
    stats := { health := 80, hunger := 0, energy := 70, happiness := 60,
               thirst := 50 },
    inventory := { items := [itemFoodC6], maxCapacity := 10,
                   currentWeight := 1 } }

/-- Concrete world resource for the C9 witness. -/
noncomputable def resourceC9 : WorldResource :=
  { id := "food_0", type := "food", position := { x := 1, y := 0, z := 2 },
    quantity := 5, harvestable := true, regeneratesOverTime := true,
    quality := 60 }

/-- Concrete registry operation sequence for the C9 witness. -/
noncomputable def opsC9 : List RegistryOp :=
  [RegistryOp.harvest "food_0" 2, RegistryOp.regenerate (fun _ => 1 / 2)]

/-- Concrete perception-snapshot resource for the C5 witness: a water
node of quantity 5 at (3, 0, 4). -/
noncomputable def resourceC5 : NearbyResource :=
  { id := "water_1", type := "water", position := { x := 3, y := 0, z := 4 },
    quantity := 5, quality := 80, harvestable := true }

/-- The same node as the world registry stores it. -/
noncomputable def worldResC5 : WorldResource :=
  { id := "water_1", type := "water", position := { x := 3, y := 0, z := 4 },
    quantity := 5, harvestable := true, regeneratesOverTime := true,
    quality := 80 }

/-- C5 witness agent at the origin: distance 5 to the node. -/
noncomputable def animalC5far : Animal :=
  { id := "a5", name := "Max", dna := dnaMid,
    stats := { health := 80, hunger := 40, energy := 70, happiness := 60,
               thirst := 50 },
    position := { x := 0, y := 0, z := 0, rotation := 0 },
    inventory := { items := [], maxCapacity := 10, currentWeight := 0 },
    age := 0.3, currentAction := "idle" }

/-- C5 witness agent moved to (3, 0, 1): distance 3 to the node. -/
noncomputable def animalC5near : Animal :=
  { animalC5far with position := { x := 3, y := 0, z := 1, rotation := 0 } }

/-- A per-stat bound for the optional fields of a StatChanges record. -/
def OptInRange : Option ℝ → Prop
  | none => True
  | some x => 0 ≤ x ∧ x ≤ 100

/-- C8 witness/counterexample agent: all stats in range, energy 10, empty
inventory. -/
noncomputable def animalC8 : Animal :=
  { id := "a8", name := "Nova", dna := dnaMid,
    stats := { health := 80, hunger := 40, energy := 10, happiness := 60,
               thirst := 50 },
    position := { x := 0, y := 0, z := 0, rotation := 0 },
    inventory := { items := [], maxCapacity := 10, currentWeight := 0 },
    age := 0.3, currentAction := "idle" }

/-- A concrete operation schedule for the invariant: a one-minute
degradation tick, an idle action, and a full-comfort safe sleep. -/
noncomputable def opsC8 : List AgentOp :=
  [AgentOp.degrade 1, AgentOp.act ActionInvocation.idle "idle",
   AgentOp.act (ActionInvocation.sleeping 1 1) "sleeping"]

/-! ## Theorems -/

theorem updateFirst_length {α : Type} (p : α → Bool) (f : α → α) :
    ∀ l : List α, (updateFirst p f l).length = l.length := by
  intro l
  induction l with
  | nil => rfl
  | cons a as ih =>
    by_cases h : p a = true
    · simp [updateFirst, h]
    · simp [updateFirst, h, ih]

theorem updateNth_length {α : Type} (f : α → α) :
    ∀ (n : ℕ) (l : List α), (updateNth f n l).length = l.length := by
  intro n l
  induction l generalizing n with
  | nil => cases n <;> rfl
  | cons a as ih => cases n with
    | zero => simp [updateNth]
    | succ n => simp [updateNth, ih n]

theorem decrementTurnOffsets_length :
    ∀ (n : ℕ) (l : List PlanStep), (decrementTurnOffsets n l).length = l.length := by
  intro n l
  induction l generalizing n with
  | nil => cases n <;> rfl
  | cons a as ih => cases n with
    | zero => simp [decrementTurnOffsets, ih 0]
    | succ n => simp [decrementTurnOffsets, ih n]

theorem updateNth_getElem? {α : Type} (f : α → α) (n : ℕ) (l : List α) :
    ∀ j, (updateNth f n l)[j]? = if j = n then (l[j]?).map f else l[j]? := by
  induction l generalizing n with
  | nil => intro j; cases n <;> simp [updateNth]
  | cons a as ih =>
    intro j
    cases n with
    | zero =>
      cases j with
      | zero => simp [updateNth]
      | succ j => simp [updateNth]
    | succ n =>
      cases j with
      | zero => simp [updateNth]
      | succ j =>
        by_cases hj : j = n
        · subst hj; simp [updateNth, ih]
        · have h2 : j + 1 ≠ n + 1 := by omega
          simp [updateNth, ih, hj, h2]

theorem decrementTurnOffsets_getElem? (n : ℕ) (l : List PlanStep) :
    ∀ j, (decrementTurnOffsets n l)[j]? =
      if n ≤ j then
        (l[j]?).map (fun s => { s with turnOffset := max 0 (s.turnOffset - 1) })
      else l[j]? := by
  induction l generalizing n with
  | nil => intro j; cases n <;> simp [decrementTurnOffsets]
  | cons a as ih =>
    intro j
    cases n with
    | zero =>
      cases j with
      | zero => simp [decrementTurnOffsets]
      | succ j =>
        have := ih 0 j
        simp only [decrementTurnOffsets, List.getElem?_cons_succ]
        simpa using this
    | succ n =>
      cases j with
      | zero =>
        have h2 : ¬ (n + 1 ≤ 0) := by omega
        simp [decrementTurnOffsets, h2]
      | succ j =>
        by_cases h : n ≤ j
        · have h2 : n + 1 ≤ j + 1 := by omega
          simp [decrementTurnOffsets, ih n, h, h2]
        · have h2 : ¬ (n + 1 ≤ j + 1) := by omega
          simp [decrementTurnOffsets, ih n, h, h2]

theorem updateFirst_getElem? {α : Type} (p : α → Bool) (f : α → α)
    (l : List α) (k : ℕ) (x : α)
    (hmiss : ∀ i < k, ∀ y, l[i]? = some y → p y = false)
    (hk : l[k]? = some x) (hx : p x = true) :
    ∀ j, (updateFirst p f l)[j]? = if j = k then some (f x) else l[j]? := by
  induction l generalizing k with
  | nil => simp at hk
  | cons a as ih =>
    cases k with
    | zero =>
      simp only [List.getElem?_cons_zero, Option.some.injEq] at hk
      subst hk
      intro j
      cases j with
      | zero => simp [updateFirst, hx]
      | succ j => simp [updateFirst, hx]
    | succ k =>
      have ha : p a = false := hmiss 0 (Nat.succ_pos k) a (by simp)
      have hmiss2 : ∀ i < k, ∀ y, as[i]? = some y → p y = false := by
        intro i hi y hy
        exact hmiss (i + 1) (by omega) y (by simpa using hy)
      have hk2 : as[k]? = some x := by simpa using hk
      have hrec := ih k hmiss2 hk2
      intro j
      cases j with
      | zero =>
        have h0 : (0 : ℕ) ≠ k + 1 := by omega
        simp [updateFirst, ha, h0]
      | succ j =>
        by_cases hj : j = k
        · subst hj
          simp [updateFirst, ha, hrec]
        · have h2 : j + 1 ≠ k + 1 := by omega
          simp [updateFirst, ha, hrec, hj, h2]

/-- Claim C2 (amended): after storePlan(p) the agent's stored plan is p
itself, with its cursor equal to p's own currentStepIndex (storePlan does
not reset it; the callers construct fresh plans with cursor zero), and p --
the newly stored plan, not the previous one -- is appended to the agent's
bounded history, which keeps at most the last five plans, discarding the
oldest entry beyond that retention count. -/
theorem storePlan_spec (st : PlanningState) (p : AnimalPlan)
    (hlen : (st.planningHistory p.animalId).length ≤ 5) :
    (storePlan st p).plans p.animalId = some p ∧
    ((storePlan st p).plans p.animalId).map AnimalPlan.currentStepIndex =
      some p.currentStepIndex ∧
    ((storePlan st p).planningHistory p.animalId).getLast? = some p ∧
    ((storePlan st p).planningHistory p.animalId).length ≤ 5 ∧
    ((storePlan st p).planningHistory p.animalId) <:+
      (st.planningHistory p.animalId ++ [p]) := by
  have hplans : (storePlan st p).plans p.animalId = some p := by
    simp [storePlan]
  have hhist : (storePlan st p).planningHistory p.animalId =
      (if 5 < (st.planningHistory p.animalId ++ [p]).length
       then (st.planningHistory p.animalId ++ [p]).tail
       else st.planningHistory p.animalId ++ [p]) := by
    simp [storePlan]
  refine ⟨hplans, by rw [hplans]; rfl, ?_, ?_, ?_⟩
  · rw [hhist]
    cases hh : st.planningHistory p.animalId with
    | nil => simp
    | cons q qs =>
      by_cases hb : 5 < ((q :: qs) ++ [p]).length
      · rw [if_pos hb]
        simp
      · rw [if_neg hb]
        exact List.getLast?_concat _
  · rw [hhist]
    have hL : (st.planningHistory p.animalId ++ [p]).length =
        (st.planningHistory p.animalId).length + 1 := by simp
    by_cases hb : 5 < (st.planningHistory p.animalId ++ [p]).length
    · rw [if_pos hb, List.length_tail]
      omega
    · rw [if_neg hb]
      exact Nat.le_of_not_lt hb
  · rw [hhist]
    by_cases hb : 5 < (st.planningHistory p.animalId ++ [p]).length
    · rw [if_pos hb]
      exact List.tail_suffix _
    · rw [if_neg hb]

/-- Witness for C2: storePlan on a fresh manager. -/
theorem storePlan_spec_witness :
    (storePlan emptyPlanningState planC2p).plans planC2p.animalId = some planC2p ∧
    ((storePlan emptyPlanningState planC2p).plans planC2p.animalId).map
      AnimalPlan.currentStepIndex = some planC2p.currentStepIndex ∧
    ((storePlan emptyPlanningState planC2p).planningHistory
      planC2p.animalId).getLast? = some planC2p ∧
    ((storePlan emptyPlanningState planC2p).planningHistory
      planC2p.animalId).length ≤ 5 ∧
    ((storePlan emptyPlanningState planC2p).planningHistory planC2p.animalId) <:+
      (emptyPlanningState.planningHistory planC2p.animalId ++ [planC2p]) :=
  storePlan_spec emptyPlanningState planC2p (by decide)

/-- Counterexample to C2 as stated: storing planC2p (cursor 3) over the
previously stored planC2q leaves the cursor at 3 (not reset to zero), and
the history entry appended by the call is the new plan planC2p, not the
previous plan planC2q. -/
theorem storePlan_claim_counterexample :
    ((storePlan (storePlan emptyPlanningState planC2q) planC2p).plans
      "a").map AnimalPlan.currentStepIndex = some 3 ∧
    (storePlan (storePlan emptyPlanningState planC2q) planC2p).planningHistory
      "a" = [planC2q, planC2p] ∧
    planC2p ≠ planC2q := by
  refine ⟨?_, ?_, ?_⟩
  · simp [storePlan, emptyPlanningState, planC2q, planC2p]
  · simp [storePlan, emptyPlanningState, planC2q, planC2p]
  · simp [planC2q, planC2p]

theorem completeCurrentStep_plans (st : PlanningState) (a : String)
    (success : Bool) (now : ℚ) (plan : AnimalPlan) (step : PlanStep)
    (hplan : st.plans a = some plan)
    (hk : plan.steps[plan.currentStepIndex]? = some step) :
    (completeCurrentStep st a success now).plans a = some
      { plan with
        steps := decrementTurnOffsets (plan.currentStepIndex + 1)
          (updateNth (fun s => { s with completedAt := some now })
            plan.currentStepIndex plan.steps)
        confidence :=
          max 0.1 (min 1.0 (plan.confidence * (if success then 1.05 else 0.95)))
        currentStepIndex := plan.currentStepIndex + 1
        lastUpdated := now } := by
  simp [completeCurrentStep, hplan, hk]

/-- Claim C7: for an agent whose stored plan's cursor points at an existing
step, completeCurrentStep stamps the completion time on that step,
multiplies the plan's confidence by 1.05 on success or 0.95 on failure
clamping the result to [0.1, 1.0], advances the cursor by exactly one (in
particular it never decreases), and decrements turnOffset by one, floored
at zero, on every step at or after the new cursor. -/
theorem completeCurrentStep_spec (st : PlanningState) (a : String)
    (plan : AnimalPlan) (step : PlanStep) (success : Bool) (now : ℚ)
    (hplan : st.plans a = some plan)
    (hk : plan.steps[plan.currentStepIndex]? = some step) :
    ∃ plan2, (completeCurrentStep st a success now).plans a = some plan2 ∧
      plan2.currentStepIndex = plan.currentStepIndex + 1 ∧
      plan.currentStepIndex < plan2.currentStepIndex ∧
      plan2.steps[plan.currentStepIndex]? =
        some { step with completedAt := some now } ∧
      plan2.confidence =
        max 0.1 (min 1.0 (plan.confidence * (if success then 1.05 else 0.95))) ∧
      ∀ j, plan2.currentStepIndex ≤ j →
        plan2.steps[j]? = (plan.steps[j]?).map
          (fun s => { s with turnOffset := max 0 (s.turnOffset - 1) }) := by
  refine ⟨_, completeCurrentStep_plans st a success now plan step hplan hk,
    rfl, Nat.lt_succ_self _, ?_, rfl, ?_⟩
  · rw [decrementTurnOffsets_getElem?]
    have hne : ¬ (plan.currentStepIndex + 1 ≤ plan.currentStepIndex) := by omega
    rw [if_neg hne, updateNth_getElem?, if_pos rfl, hk]
    rfl
  · intro j hj
    rw [decrementTurnOffsets_getElem?]
    have hle : plan.currentStepIndex + 1 ≤ j := hj
    rw [if_pos hle, updateNth_getElem?]
    have hne : j ≠ plan.currentStepIndex := by omega
    rw [if_neg hne]

/-- Witness for C7: completing the first step of the concrete two-step
plan. -/
theorem completeCurrentStep_spec_witness :
    ∃ plan2,
      (completeCurrentStep (storePlan emptyPlanningState planC7) "a" true
        100).plans "a" = some plan2 ∧
      plan2.currentStepIndex = planC7.currentStepIndex + 1 ∧
      planC7.currentStepIndex < plan2.currentStepIndex ∧
      plan2.steps[planC7.currentStepIndex]? =
        some { stepC7a with completedAt := some 100 } ∧
      plan2.confidence =
        max 0.1 (min 1.0 (planC7.confidence * (if true then 1.05 else 0.95))) ∧
      ∀ j, plan2.currentStepIndex ≤ j →
        plan2.steps[j]? = (planC7.steps[j]?).map
          (fun s => { s with turnOffset := max 0 (s.turnOffset - 1) }) :=
  completeCurrentStep_spec (storePlan emptyPlanningState planC7) "a" planC7
    stepC7a true 100 (by simp [storePlan, emptyPlanningState, planC7])
    (by simp [planC7])

theorem isExecutingStep_eq_true (st : PlanningState) (a : String)
    (plan : AnimalPlan) (step : PlanStep)
    (hplan : st.plans a = some plan)
    (hk : plan.steps[plan.currentStepIndex]? = some step)
    (hstart : jsTruthy step.startedAt = true)
    (hcomp : jsTruthy step.completedAt = false) :
    isExecutingStep st a = true := by
  have hlt : plan.currentStepIndex < plan.steps.length :=
    (List.getElem?_eq_some.mp hk).1
  simp [isExecutingStep, hplan, hk, Nat.not_le.mpr hlt, hstart, hcomp]

theorem canMakeNewDecision_eq_false_of_executing (st : PlanningState)
    (a : String) (now : ℚ) (plan : AnimalPlan)
    (hplan : st.plans a = some plan)
    (hlen : ¬ plan.steps.length ≤ plan.currentStepIndex)
    (hexec : isExecutingStep st a = true) :
    canMakeNewDecision st a now = false := by
  simp [canMakeNewDecision, hplan, hlen, hexec]

theorem canMakeNewDecision_eq_false_of_delay (st : PlanningState)
    (a : String) (now : ℚ) (plan : AnimalPlan) (k : ℕ) (lastStep : PlanStep)
    (t : ℚ)
    (hplan : st.plans a = some plan)
    (hidx : plan.currentStepIndex = k + 1)
    (hlen : k + 1 < plan.steps.length)
    (hlast : plan.steps[k]? = some lastStep)
    (hcomp : lastStep.completedAt = some t)
    (ht : t ≠ 0)
    (hdelay : now - t < MIN_DELAY_BETWEEN_STEPS) :
    canMakeNewDecision st a now = false := by
  have hnle : ¬ plan.steps.length ≤ plan.currentStepIndex := by omega
  by_cases hexec : isExecutingStep st a = true
  · simp [canMakeNewDecision, hplan, hnle, hexec]
  · simp only [Bool.not_eq_true] at hexec
    simp [canMakeNewDecision, hplan, hnle, hexec, hidx, hlast, hcomp, ht, hdelay]
    omega

/-- Claim C1 (amended): immediately after startStep is applied to the
plan's current step, canMakeNewDecision returns false, and it stays false
for every query time until completeCurrentStep is applied; after that
completeCurrentStep, PROVIDED THE PLAN IS NOT EXHAUSTED (the completed
step was not the last one), canMakeNewDecision returns false whenever less
than the configured minimum inter-step delay (1000 ms) has elapsed since
the completed step's completion timestamp.  (When the completed step was
the last one, the plan-complete check fires first and the function returns
true regardless of the delay -- see the counterexample.) -/
theorem canMakeNewDecision_gating (st : PlanningState) (a sid : String)
    (plan : AnimalPlan) (step : PlanStep) (success : Bool) (t1 t2 : ℚ)
    (hplan : st.plans a = some plan)
    (hk : plan.steps[plan.currentStepIndex]? = some step)
    (hid : step.id = sid)
    (hmiss : ∀ i < plan.currentStepIndex, ∀ s, plan.steps[i]? = some s →
      s.id ≠ sid)
    (hnc : step.completedAt = none)
    (ht1 : t1 ≠ 0) (ht2 : t2 ≠ 0) :
    (∀ now, canMakeNewDecision (startStep st a sid t1) a now = false) ∧
    (plan.currentStepIndex + 1 < plan.steps.length →
      ∀ now, now - t2 < MIN_DELAY_BETWEEN_STEPS →
        canMakeNewDecision
          (completeCurrentStep (startStep st a sid t1) a success t2) a now
          = false) := by
  have hlt : plan.currentStepIndex < plan.steps.length :=
    (List.getElem?_eq_some.mp hk).1
  have hmissB : ∀ i < plan.currentStepIndex, ∀ y,
      plan.steps[i]? = some y → (fun s : PlanStep => s.id == sid) y = false := by
    intro i hi y hy
    exact beq_eq_false_iff_ne.mpr (hmiss i hi y hy)
  have hstepB : (fun s : PlanStep => s.id == sid) step = true :=
    beq_iff_eq.mpr hid
  have hget1 := updateFirst_getElem? (fun s : PlanStep => s.id == sid)
    (fun s => { s with startedAt := some t1 }) plan.steps
    plan.currentStepIndex step hmissB hk hstepB
  have hplans1 : (startStep st a sid t1).plans a = some { plan with steps := updateFirst (fun s : PlanStep => s.id == sid) (fun s => { s with startedAt := some t1 }) plan.steps } := by
    simp [startStep, hplan]
  have hlen1 : (updateFirst (fun s : PlanStep => s.id == sid)
      (fun s => { s with startedAt := some t1 }) plan.steps).length =
      plan.steps.length := updateFirst_length _ _ _
  have hk1 : (updateFirst (fun s : PlanStep => s.id == sid)
      (fun s => { s with startedAt := some t1 })
      plan.steps)[plan.currentStepIndex]? =
      some { step with startedAt := some t1 } := by
    rw [hget1]; simp
  constructor
  · intro now
    refine canMakeNewDecision_eq_false_of_executing _ _ _ _ hplans1 ?_ ?_
    · simpa [hlen1] using Nat.not_le.mpr hlt
    · refine isExecutingStep_eq_true _ _ _
        { step with startedAt := some t1 } hplans1 hk1 ?_ ?_
      · simp [jsTruthy, ht1]
      · simp [jsTruthy, hnc]
  · intro hlen2 now hnow
    have hplans2 := completeCurrentStep_plans (startStep st a sid t1) a
      success t2 _ { step with startedAt := some t1 } hplans1 hk1
    refine canMakeNewDecision_eq_false_of_delay _ _ _ _ plan.currentStepIndex { step with startedAt := some t1, completedAt := some t2 } t2 hplans2 rfl ?_ ?_ rfl ht2 hnow
    · simpa [decrementTurnOffsets_length, updateNth_length, hlen1] using hlen2
    · rw [decrementTurnOffsets_getElem?]
      have hne : ¬ (plan.currentStepIndex + 1 ≤ plan.currentStepIndex) := by
        omega
      rw [if_neg hne, updateNth_getElem?, if_pos rfl, hk1]
      rfl

/-- Witness for C1: the two-step concrete plan, step one started at t=100,
completed at t=200, queried at t=900 (700 ms after completion). -/
theorem canMakeNewDecision_gating_witness :
    (∀ now, canMakeNewDecision
      (startStep (storePlan emptyPlanningState planC7) "a" "s1" 100) "a" now
      = false) ∧
    (planC7.currentStepIndex + 1 < planC7.steps.length →
      ∀ now, now - 200 < MIN_DELAY_BETWEEN_STEPS →
        canMakeNewDecision
          (completeCurrentStep
            (startStep (storePlan emptyPlanningState planC7) "a" "s1" 100)
            "a" true 200) "a" now = false) := by
  have h := canMakeNewDecision_gating (storePlan emptyPlanningState planC7)
    "a" "s1" planC7 stepC7a true 100 200
    (by simp [storePlan, emptyPlanningState, planC7])
    (by simp [planC7]) (by simp [stepC7a])
    (by intro i hi s hs; simp [planC7] at hi)
    (by simp [stepC7a]) (by norm_num) (by norm_num)
  exact h

/-- Counterexample to C1 as stated: for a one-step plan, after startStep at
t=100 and completeCurrentStep at t=200, the plan is exhausted, and
canMakeNewDecision at t=300 returns true even though only 100 ms (less
than the 1000 ms minimum delay) have elapsed since the completion
timestamp. -/
theorem canMakeNewDecision_claim_counterexample :
    canMakeNewDecision stC1 "a" 300 = true ∧
    (300 : ℚ) - 200 < MIN_DELAY_BETWEEN_STEPS := by
  constructor
  · simp [stC1, canMakeNewDecision, completeCurrentStep, startStep,
      storePlan, emptyPlanningState, planC1, stepC1, updateFirst, updateNth,
      decrementTurnOffsets]
  · norm_num [MIN_DELAY_BETWEEN_STEPS]

theorem decisionTick_stalled (st : PlanningState) (a : String) (now : ℚ)
    (success : Bool) (oraclePlan : AnimalPlan) (plan : AnimalPlan)
    (step : PlanStep)
    (hplan : st.plans a = some plan)
    (hk : plan.steps[plan.currentStepIndex]? = some step)
    (hoff : step.turnOffset ≠ 0)
    (hconf : 0.3 ≤ plan.confidence)
    (hage : now - plan.createdAt ≤ 10 * 60 * 1000) :
    (decisionTick st a now success oraclePlan).2 = st ∧
    ((decisionTick st a now success oraclePlan).1 =
        DecisionOutcome.skipDecision ∨
      (decisionTick st a now success oraclePlan).1 =
        DecisionOutcome.noEligibleStep) := by
  have hlt : plan.currentStepIndex < plan.steps.length :=
    (List.getElem?_eq_some.mp hk).1
  have hcur : getCurrentStep st a = none := by
    simp [getCurrentStep, hplan, hk, hoff, Nat.not_le.mpr hlt]
  have hneeds : needsNewPlan st a now = false := by
    simp [needsNewPlan, hplan, Nat.not_le.mpr hlt, not_lt.mpr hconf,
      not_lt.mpr hage]
  by_cases hcan : canMakeNewDecision st a now = true
  · simp [decisionTick, handleAnimalDecision, hcan, hcur, hneeds]
  · simp only [Bool.not_eq_true] at hcan
    simp [decisionTick, handleAnimalDecision, hcan]

/-- Claim C10: for an agent whose stored plan is not exhausted, has
confidence at least the low-confidence threshold (0.3), is younger than
the staleness ceiling (ten minutes), and whose current step has a positive
turnOffset and has not been started, the tick controller's decision
handler executes no action, makes no oracle call (the outcome of every
tick is either the canMakeNewDecision gate skip or the
nothing-to-do warning branch), and leaves the planning state unchanged, on
every tick whose time is within the staleness ceiling of the plan's
creation. -/
theorem handleAnimalDecision_stalled (st : PlanningState) (a : String)
    (success : Bool) (oraclePlan : AnimalPlan) (plan : AnimalPlan)
    (step : PlanStep) (times : List ℚ)
    (hplan : st.plans a = some plan)
    (hk : plan.steps[plan.currentStepIndex]? = some step)
    (hoff : 0 < step.turnOffset)
    (_hstart : step.startedAt = none)
    (hconf : 0.3 ≤ plan.confidence)
    (htimes : ∀ t ∈ times, t - plan.createdAt ≤ 10 * 60 * 1000) :
    (runDecisionTicks a success oraclePlan st times).1 = st ∧
    ∀ o ∈ (runDecisionTicks a success oraclePlan st times).2,
      o = DecisionOutcome.skipDecision ∨ o = DecisionOutcome.noEligibleStep := by
  induction times with
  | nil => simp [runDecisionTicks]
  | cons t ts ih =>
    have hone := decisionTick_stalled st a t success oraclePlan plan step
      hplan hk (by omega) hconf (htimes t (by simp))
    have ihrest := ih (fun u hu => htimes u (by simp [hu]))
    constructor
    · simp only [runDecisionTicks]
      rw [hone.1]
      exact ihrest.1
    · intro o ho
      simp only [runDecisionTicks, List.mem_cons] at ho
      rcases ho with ho | ho
      · rw [ho]; exact hone.2
      · rw [hone.1] at ho
        exact ihrest.2 o ho

/-- Witness for C10: the concrete future-scheduled one-step plan, ticked
twice inside the staleness window. -/
theorem handleAnimalDecision_stalled_witness :
    (runDecisionTicks "a" true planC10oracle
      (storePlan emptyPlanningState planC10) [100, 200]).1 =
      storePlan emptyPlanningState planC10 ∧
    ∀ o ∈ (runDecisionTicks "a" true planC10oracle
        (storePlan emptyPlanningState planC10) [100, 200]).2,
      o = DecisionOutcome.skipDecision ∨ o = DecisionOutcome.noEligibleStep :=
  handleAnimalDecision_stalled (storePlan emptyPlanningState planC10) "a"
    true planC10oracle planC10 stepC10 [100, 200]
    (by simp [storePlan, emptyPlanningState, planC10])
    (by simp [planC10])
    (by simp [stepC10])
    (by simp [stepC10])
    (by simp [planC10]; norm_num)
    (by intro t ht; simp [planC10] at ht ⊢; rcases ht with h | h <;> norm_num [h])

set_option maxHeartbeats 1600000 in
/-- Claim C3 (amended): for an agent with urgent thirst (thirst above 70)
and no water in inventory -- in particular the scenario agent with
thirst 80, hunger 20, energy 90 and an empty inventory -- the rule-based
fallback plan's first step is "exploring" with reason "Find water source",
not "drinking"; the fallback planner derives steps from stats and
inventory alone and never emits a "harvesting" step, even when a water
node is visible within harvest radius. -/
theorem createFallbackPlan_thirsty_no_water (animal : Animal) (now : ℚ)
    (hthirst : 70 < animal.stats.thirst)
    (hnw : ∀ i ∈ animal.inventory.items, ¬(i.type = "water" ∧ 0 < i.quantity)) :
    ((createFallbackPlan animal now).steps.head?).map PlanStep.action =
      some "exploring" ∧
    ((createFallbackPlan animal now).steps.head?).map PlanStep.reason =
      some "Find water source" ∧
    ∀ s ∈ (createFallbackPlan animal now).steps, s.action ≠ "harvesting" := by
  have hany : (animal.inventory.items.any fun item =>
      decide (item.type = "water" ∧ 0 < item.quantity)) = false := by
    rw [List.any_eq_false]
    intro x hx
    simpa using hnw x hx
  simp only [createFallbackPlan, hany, if_pos hthirst, Bool.false_eq_true,
    if_false]
  refine ⟨?_, ?_, ?_⟩ <;> split_ifs <;> simp_all

/-- Witness for C3: the scenario agent (thirst 80, empty inventory). -/
theorem createFallbackPlan_thirsty_no_water_witness :
    ((createFallbackPlan animalC3 0).steps.head?).map PlanStep.action =
      some "exploring" ∧
    ((createFallbackPlan animalC3 0).steps.head?).map PlanStep.reason =
      some "Find water source" ∧
    ∀ s ∈ (createFallbackPlan animalC3 0).steps, s.action ≠ "harvesting" :=
  createFallbackPlan_thirsty_no_water animalC3 0
    (by norm_num [animalC3]) (by simp [animalC3])

set_option maxHeartbeats 800000 in
/-- Counterexample to C3 as stated: for the scenario agent (thirst 80,
hunger 20, energy 90, empty inventory, and regardless of any water node
visible within harvest radius, which the fallback planner never reads),
the fallback plan's first step is "exploring", not "harvesting". -/
theorem createFallbackPlan_claim_counterexample :
    ((createFallbackPlan animalC3 0).steps.head?).map PlanStep.action =
      some "exploring" ∧
    (some "exploring" : Option String) ≠ some "harvesting" := by
  constructor
  · norm_num [createFallbackPlan, animalC3]
  · simp

/-- Claim C6 (amended): an agent with no inventory item of the required
type (food for eating, water for drinking) with positive quantity gets a
failure result with no stat changes; an agent holding a matching item with
positive quantity gets a success result that consumes exactly one unit of
the item and sets hunger (resp. thirst) to a value never above its
previous value -- strictly below it whenever the stat and the item's
quality are positive.  (As stated, the claim's "reduces" fails at the
boundary: with the stat already 0, or a quality-0 item, the stat is
unchanged -- see the counterexample.) -/
theorem executeEatDrink_inventory_gating (a b : Animal)
    (itemF itemW : InventoryItem)
    (hnf : ∀ i ∈ a.inventory.items, ¬(i.type = "food" ∧ 0 < i.quantity))
    (hnw : ∀ i ∈ a.inventory.items, ¬(i.type = "water" ∧ 0 < i.quantity))
    (hf : b.inventory.items.find?
      (fun item => decide (item.type = "food" ∧ 0 < item.quantity)) = some itemF)
    (hw : b.inventory.items.find?
      (fun item => decide (item.type = "water" ∧ 0 < item.quantity)) = some itemW)
    (hhun : 0 ≤ b.stats.hunger) (hthi : 0 ≤ b.stats.thirst)
    (hqF : 0 ≤ itemF.quality) (hqW : 0 ≤ itemW.quality) :
    ((executeEat a).success = false ∧ (executeEat a).statChanges = none) ∧
    ((executeDrink a).success = false ∧ (executeDrink a).statChanges = none) ∧
    ((executeEat b).success = true ∧
      (executeEat b).consumedItem = some { itemF with quantity := 1 } ∧
      ((executeEat b).statChanges.map StatChanges.hunger) =
        some (some (max 0 (b.stats.hunger - 20 * (itemF.quality / 100)))) ∧
      max 0 (b.stats.hunger - 20 * (itemF.quality / 100)) ≤ b.stats.hunger ∧
      (0 < b.stats.hunger → 0 < itemF.quality →
        max 0 (b.stats.hunger - 20 * (itemF.quality / 100)) < b.stats.hunger)) ∧
    ((executeDrink b).success = true ∧
      (executeDrink b).consumedItem = some { itemW with quantity := 1 } ∧
      ((executeDrink b).statChanges.map StatChanges.thirst) =
        some (some (max 0 (b.stats.thirst - 25 * (itemW.quality / 100)))) ∧
      max 0 (b.stats.thirst - 25 * (itemW.quality / 100)) ≤ b.stats.thirst ∧
      (0 < b.stats.thirst → 0 < itemW.quality →
        max 0 (b.stats.thirst - 25 * (itemW.quality / 100)) < b.stats.thirst)) := by
  have hfindF : a.inventory.items.find?
      (fun item => decide (item.type = "food" ∧ 0 < item.quantity)) = none := by
    rw [List.find?_eq_none]
    intro x hx
    simpa using hnf x hx
  have hfindW : a.inventory.items.find?
      (fun item => decide (item.type = "water" ∧ 0 < item.quantity)) = none := by
    rw [List.find?_eq_none]
    intro x hx
    simpa using hnw x hx
  refine ⟨⟨?_, ?_⟩, ⟨?_, ?_⟩, ⟨?_, ?_, ?_, ?_, ?_⟩, ⟨?_, ?_, ?_, ?_, ?_⟩⟩
  · simp only [executeEat]; rw [hfindF]
  · simp only [executeEat]; rw [hfindF]
  · simp only [executeDrink]; rw [hfindW]
  · simp only [executeDrink]; rw [hfindW]
  · simp only [executeEat]; rw [hf]
  · simp only [executeEat]; rw [hf]
  · simp only [executeEat]; rw [hf]; rfl
  · exact max_le hhun (by linarith)
  · intro h1 h2
    exact max_lt h1 (by linarith)
  · simp only [executeDrink]; rw [hw]
  · simp only [executeDrink]; rw [hw]
  · simp only [executeDrink]; rw [hw]; rfl
  · exact max_le hthi (by linarith)
  · intro h1 h2
    exact max_lt h1 (by linarith)

/-- Witness for C6: an empty-handed agent and a stocked agent. -/
theorem executeEatDrink_inventory_gating_witness :
    ((executeEat animalC6empty).success = false ∧
      (executeEat animalC6empty).statChanges = none) ∧
    ((executeDrink animalC6empty).success = false ∧
      (executeDrink animalC6empty).statChanges = none) ∧
    ((executeEat animalC6stocked).success = true ∧
      (executeEat animalC6stocked).consumedItem =
        some { itemFoodC6 with quantity := 1 } ∧
      ((executeEat animalC6stocked).statChanges.map StatChanges.hunger) =
        some (some (max 0 (animalC6stocked.stats.hunger -
          20 * (itemFoodC6.quality / 100)))) ∧
      max 0 (animalC6stocked.stats.hunger - 20 * (itemFoodC6.quality / 100)) ≤
        animalC6stocked.stats.hunger ∧
      (0 < animalC6stocked.stats.hunger → 0 < itemFoodC6.quality →
        max 0 (animalC6stocked.stats.hunger -
          20 * (itemFoodC6.quality / 100)) < animalC6stocked.stats.hunger)) ∧
    ((executeDrink animalC6stocked).success = true ∧
      (executeDrink animalC6stocked).consumedItem =
        some { itemWaterC6 with quantity := 1 } ∧
      ((executeDrink animalC6stocked).statChanges.map StatChanges.thirst) =
        some (some (max 0 (animalC6stocked.stats.thirst -
          25 * (itemWaterC6.quality / 100)))) ∧
      max 0 (animalC6stocked.stats.thirst - 25 * (itemWaterC6.quality / 100)) ≤
        animalC6stocked.stats.thirst ∧
      (0 < animalC6stocked.stats.thirst → 0 < itemWaterC6.quality →
        max 0 (animalC6stocked.stats.thirst -
          25 * (itemWaterC6.quality / 100)) < animalC6stocked.stats.thirst)) :=
  executeEatDrink_inventory_gating animalC6empty animalC6stocked itemFoodC6
    itemWaterC6
    (by simp [animalC6empty])
    (by simp [animalC6empty])
    (by
      show List.find? _ [itemFoodC6, itemWaterC6] = some itemFoodC6
      rw [List.find?_cons_of_pos]
      simp [itemFoodC6])
    (by
      show List.find? _ [itemFoodC6, itemWaterC6] = some itemWaterC6
      rw [List.find?_cons_of_neg, List.find?_cons_of_pos]
      · simp [itemWaterC6]
      · simp [itemFoodC6])
    (by norm_num [animalC6stocked, animalC6empty])
    (by norm_num [animalC6stocked, animalC6empty])
    (by norm_num [itemFoodC6])
    (by norm_num [itemWaterC6])

/-- Counterexample to C6 as stated: an agent whose hunger is already 0 and
who holds a food item gets a success result, but the hunger stat change is
0 = the previous hunger value: eating did not reduce hunger. -/
theorem executeEat_claim_counterexample :
    (executeEat animalC6ce).success = true ∧
    ((executeEat animalC6ce).statChanges.map StatChanges.hunger) =
      some (some 0) ∧
    animalC6ce.stats.hunger = 0 := by
  have hfind : animalC6ce.inventory.items.find?
      (fun item => decide (item.type = "food" ∧ 0 < item.quantity)) =
      some itemFoodC6 := by
    show List.find? _ [itemFoodC6] = some itemFoodC6
    rw [List.find?_cons_of_pos]
    simp [itemFoodC6]
  refine ⟨?_, ?_, ?_⟩
  · simp only [executeEat]; rw [hfind]
  · simp only [executeEat]; rw [hfind]
    show some (some (max 0 (animalC6ce.stats.hunger -
      20 * (itemFoodC6.quality / 100)))) = some (some 0)
    norm_num [animalC6ce, animalC6empty, itemFoodC6]
  · norm_num [animalC6ce, animalC6empty]

theorem updateFirst_mem_of_find? {α : Type} (p : α → Bool) (f : α → α)
    (l : List α) (x : α) (hfind : l.find? p = some x) :
    ∀ b ∈ updateFirst p f l, b ∈ l ∨ b = f x := by
  induction l with
  | nil => simp [updateFirst]
  | cons a as ih =>
    by_cases hpa : p a = true
    · rw [List.find?_cons_of_pos _ hpa] at hfind
      cases hfind
      intro b hb
      rw [updateFirst, if_pos hpa] at hb
      rcases List.mem_cons.mp hb with hb | hb
      · right; exact hb
      · left; exact List.mem_cons_of_mem _ hb
    · rw [List.find?_cons_of_neg _ hpa] at hfind
      intro b hb
      rw [updateFirst, if_neg hpa] at hb
      rcases List.mem_cons.mp hb with hb | hb
      · left; rw [hb]; exact List.mem_cons_self _ _
      · rcases ih hfind b hb with hb' | hb'
        · left; exact List.mem_cons_of_mem _ hb'
        · right; exact hb'

theorem updateFirst_getElem?_cases {α : Type} (p : α → Bool) (f : α → α)
    (l : List α) : ∀ j : ℕ, (updateFirst p f l)[j]? = l[j]? ∨
      ∃ a, l[j]? = some a ∧ (updateFirst p f l)[j]? = some (f a) := by
  induction l with
  | nil => intro j; left; simp [updateFirst]
  | cons a as ih =>
    intro j
    by_cases hpa : p a = true
    · cases j with
      | zero =>
        right
        refine ⟨a, by simp, ?_⟩
        simp [updateFirst, hpa]
      | succ j => left; simp [updateFirst, hpa]
    · have hpa' : p a = false := by simpa using hpa
      cases j with
      | zero => left; simp [updateFirst, hpa']
      | succ j =>
        rcases ih j with h | ⟨b, hb1, hb2⟩
        · left; simpa [updateFirst, hpa'] using h
        · right
          refine ⟨b, by simpa using hb1, ?_⟩
          simpa [updateFirst, hpa'] using hb2

theorem applyRegistryOp_nonneg (w : List WorldResource) (op : RegistryOp)
    (hwf : WFRegistryOp op) (h : ∀ r ∈ w, 0 ≤ r.quantity) :
    ∀ r ∈ applyRegistryOp w op, 0 ≤ r.quantity := by
  cases op with
  | harvest rid amt =>
    simp only [applyRegistryOp, harvestResource]
    cases hfind : w.find? (fun r => r.id == rid) with
    | none => simpa using h
    | some resource =>
      by_cases hguard : (! resource.harvestable : Bool) ∨ resource.quantity < amt
      · simp only [if_pos hguard]
        simpa using h
      · simp only [if_neg hguard]
        intro b hb
        rcases updateFirst_mem_of_find? _ _ w resource hfind b hb with hb' | hb'
        · exact h b hb'
        · rw [hb']
          have hq : ¬ resource.quantity < amt := fun hc => hguard (Or.inr hc)
          simpa using sub_nonneg.mpr (not_lt.mp hq)
  | consume rid amt =>
    simp only [applyRegistryOp, consumeResource]
    cases hfind : w.find? (fun r => r.id == rid) with
    | none => simpa using h
    | some resource =>
      by_cases hguard : resource.quantity < amt
      · simp only [if_pos hguard]
        simpa using h
      · simp only [if_neg hguard]
        intro b hb
        rcases updateFirst_mem_of_find? _ _ w resource hfind b hb with hb' | hb'
        · exact h b hb'
        · rw [hb']
          simpa using sub_nonneg.mpr (not_lt.mp hguard)
  | regenerate rand =>
    simp only [applyRegistryOp, regenerateResources]
    intro b hb
    rcases List.mem_map.mp hb with ⟨r, hr, hrb⟩
    have hrand := hwf r.id
    have hq := h r hr
    subst hrb
    split_ifs <;> simp <;> nlinarith [hrand.1, hrand.2]

/-- Claim C9: starting from nonnegative quantities, no sequence of
wellformed registry operations (harvest, consume, regenerate) ever drives
a node's quantity negative; harvest and consume never increase any node's
quantity (so regeneration is the only increasing operation), and
regeneration never decreases any node's quantity (so the harvest-type
operations are the only decreasing ones) while keeping it below the
type-specific ceiling max(previous, regenCeiling type). -/
theorem worldResource_quantity_invariants (w : List WorldResource)
    (ops : List RegistryOp)
    (h0 : ∀ r ∈ w, 0 ≤ r.quantity)
    (hwf : ∀ op ∈ ops, WFRegistryOp op) :
    (∀ r ∈ applyRegistryOps w ops, 0 ≤ r.quantity) ∧
    (∀ (v : List WorldResource) (rid : String) (amt : ℝ), 0 ≤ amt →
      ∀ (j : ℕ) (r' : WorldResource),
        (applyRegistryOp v (RegistryOp.harvest rid amt))[j]? = some r' →
        ∃ r, v[j]? = some r ∧ r'.quantity ≤ r.quantity) ∧
    (∀ (v : List WorldResource) (rid : String) (amt : ℝ), 0 ≤ amt →
      ∀ (j : ℕ) (r' : WorldResource),
        (applyRegistryOp v (RegistryOp.consume rid amt))[j]? = some r' →
        ∃ r, v[j]? = some r ∧ r'.quantity ≤ r.quantity) ∧
    (∀ (v : List WorldResource) (rand : String → ℝ),
      (∀ s, 0 ≤ rand s ∧ rand s < 1) →
      ∀ (j : ℕ) (r' : WorldResource),
        (applyRegistryOp v (RegistryOp.regenerate rand))[j]? = some r' →
        ∃ r, v[j]? = some r ∧ r.quantity ≤ r'.quantity ∧
          r'.quantity ≤ max r.quantity (regenCeiling r.type)) := by
  have part1 : ∀ (ops2 : List RegistryOp) (v : List WorldResource),
      (∀ op ∈ ops2, WFRegistryOp op) → (∀ r ∈ v, 0 ≤ r.quantity) →
      ∀ r ∈ applyRegistryOps v ops2, 0 ≤ r.quantity := by
    intro ops2
    induction ops2 with
    | nil =>
      intro v _ h
      simpa [applyRegistryOps] using h
    | cons op rest ih =>
      intro v hwf2 h
      simp only [applyRegistryOps]
      exact ih _ (fun o ho => hwf2 o (List.mem_cons_of_mem _ ho))
        (applyRegistryOp_nonneg v op (hwf2 op (List.mem_cons_self _ _)) h)
  refine ⟨part1 ops w hwf h0, ?_, ?_, ?_⟩
  · intro v rid amt hamt j r' hj
    simp only [applyRegistryOp, harvestResource] at hj
    cases hfind : v.find? (fun r => r.id == rid) with
    | none =>
      simp only [hfind] at hj
      exact ⟨r', hj, le_refl _⟩
    | some resource =>
      simp only [hfind] at hj
      by_cases hguard : (! resource.harvestable : Bool) ∨ resource.quantity < amt
      · rw [if_pos hguard] at hj
        exact ⟨r', hj, le_refl _⟩
      · rw [if_neg hguard] at hj
        have hj2 : (updateFirst (fun r => r.id == rid)
            (fun r => { r with quantity := r.quantity - amt }) v)[j]? =
            some r' := hj
        rcases updateFirst_getElem?_cases (fun r => r.id == rid)
          (fun r => { r with quantity := r.quantity - amt }) v j with
          h | ⟨a, ha1, ha2⟩
        · rw [h] at hj2
          exact ⟨r', hj2, le_refl _⟩
        · rw [ha2] at hj2
          cases hj2
          exact ⟨a, ha1, by simpa using sub_le_self a.quantity hamt⟩
  · intro v rid amt hamt j r' hj
    simp only [applyRegistryOp, consumeResource] at hj
    cases hfind : v.find? (fun r => r.id == rid) with
    | none =>
      simp only [hfind] at hj
      exact ⟨r', hj, le_refl _⟩
    | some resource =>
      simp only [hfind] at hj
      by_cases hguard : resource.quantity < amt
      · rw [if_pos hguard] at hj
        exact ⟨r', hj, le_refl _⟩
      · rw [if_neg hguard] at hj
        have hj2 : (updateFirst (fun r => r.id == rid)
            (fun r => { r with quantity := r.quantity - amt }) v)[j]? =
            some r' := hj
        rcases updateFirst_getElem?_cases (fun r => r.id == rid)
          (fun r => { r with quantity := r.quantity - amt }) v j with
          h | ⟨a, ha1, ha2⟩
        · rw [h] at hj2
          exact ⟨r', hj2, le_refl _⟩
        · rw [ha2] at hj2
          cases hj2
          exact ⟨a, ha1, by simpa using sub_le_self a.quantity hamt⟩
  · intro v rand hrand j r' hj
    simp only [applyRegistryOp, regenerateResources] at hj
    rw [List.getElem?_map] at hj
    rcases Option.map_eq_some'.mp hj with ⟨r, hrv, hr2⟩
    refine ⟨r, hrv, ?_⟩
    rw [← hr2]
    have hq0 := (hrand r.id).1
    have hq1 := (hrand r.id).2
    split_ifs with hreg hfood hwater hberries
    · have hc : regenCeiling r.type = 50 := by
        rw [hfood.1]
        simp [regenCeiling]
      rw [hc]
      constructor
      · show r.quantity ≤ r.quantity + rand r.id * 30
        nlinarith
      · show r.quantity + rand r.id * 30 ≤ max r.quantity 50
        exact le_trans (le_of_lt (by nlinarith [hfood.2])) (le_max_right _ _)
    · have hc : regenCeiling r.type = 150 := by
        rw [hwater.1]
        simp [regenCeiling]
      rw [hc]
      constructor
      · show r.quantity ≤ r.quantity + rand r.id * 100
        nlinarith
      · show r.quantity + rand r.id * 100 ≤ max r.quantity 150
        exact le_trans (le_of_lt (by nlinarith [hwater.2])) (le_max_right _ _)
    · have hc : regenCeiling r.type = 20 := by
        rw [hberries.1]
        simp [regenCeiling]
      rw [hc]
      constructor
      · show r.quantity ≤ r.quantity + rand r.id * 15
        nlinarith
      · show r.quantity + rand r.id * 15 ≤ max r.quantity 20
        exact le_trans (le_of_lt (by nlinarith [hberries.2])) (le_max_right _ _)
    · exact ⟨le_refl _, le_max_left _ _⟩
    · exact ⟨le_refl _, le_max_left _ _⟩

/-- Witness for C9: one food node at quantity 5, harvested by 2 and then
regenerated with a Math.random() draw of one half. -/
theorem worldResource_quantity_invariants_witness :
    (∀ r ∈ applyRegistryOps [resourceC9] opsC9, 0 ≤ r.quantity) ∧
    (∀ (v : List WorldResource) (rid : String) (amt : ℝ), 0 ≤ amt →
      ∀ (j : ℕ) (r' : WorldResource),
        (applyRegistryOp v (RegistryOp.harvest rid amt))[j]? = some r' →
        ∃ r, v[j]? = some r ∧ r'.quantity ≤ r.quantity) ∧
    (∀ (v : List WorldResource) (rid : String) (amt : ℝ), 0 ≤ amt →
      ∀ (j : ℕ) (r' : WorldResource),
        (applyRegistryOp v (RegistryOp.consume rid amt))[j]? = some r' →
        ∃ r, v[j]? = some r ∧ r'.quantity ≤ r.quantity) ∧
    (∀ (v : List WorldResource) (rand : String → ℝ),
      (∀ s, 0 ≤ rand s ∧ rand s < 1) →
      ∀ (j : ℕ) (r' : WorldResource),
        (applyRegistryOp v (RegistryOp.regenerate rand))[j]? = some r' →
        ∃ r, v[j]? = some r ∧ r.quantity ≤ r'.quantity ∧
          r'.quantity ≤ max r.quantity (regenCeiling r.type)) :=
  worldResource_quantity_invariants [resourceC9] opsC9
    (by
      intro r hr
      rw [List.mem_singleton] at hr
      subst hr
      norm_num [resourceC9])
    (by
      intro op hop
      rcases List.mem_cons.mp hop with h | h
      · subst h
        show (0 : ℝ) ≤ 2
        norm_num
      · rw [List.mem_singleton] at h
        subst h
        intro s
        norm_num)

theorem updateFirst_find? {α : Type} (p : α → Bool) (f : α → α)
    (l : List α) (x : α) (hfind : l.find? p = some x)
    (hpf : p (f x) = true) :
    (updateFirst p f l).find? p = some (f x) := by
  induction l with
  | nil => simp at hfind
  | cons a as ih =>
    by_cases hpa : p a = true
    · rw [List.find?_cons_of_pos _ hpa] at hfind
      cases hfind
      rw [updateFirst, if_pos hpa]
      exact List.find?_cons_of_pos _ hpf
    · rw [List.find?_cons_of_neg _ hpa] at hfind
      rw [updateFirst, if_neg hpa, List.find?_cons_of_neg _ hpa]
      exact ih hfind

/-- Claim C5: for a harvest execution against a snapshot resource found by
id, (1) when the agent's planar distance to the resource exceeds
HARVEST_RADIUS = 4, the executor returns a failure result and the world
registry is untouched; (2) when the agent is within the harvest radius and
the resource is harvestable with positive quantity, with sufficient energy
and inventory capacity, the executor returns a success result carrying a
harvested item of positive quantity at most the resource's quantity, and
the registry's harvest reduces the matching node's quantity by exactly
that amount. -/
theorem executeHarvest_flow_spec (rid : String)
    (nearbyResources : List NearbyResource) (world : List WorldResource)
    (res : NearbyResource)
    (hfind : nearbyResources.find? (fun r => r.id == rid) = some res) :
    (∀ animal : Animal,
      HARVEST_RADIUS < Real.sqrt ((res.position.x - animal.position.x) ^ 2 +
        (res.position.z - animal.position.z) ^ 2) →
      (harvestFlow animal rid nearbyResources world).1.success = false ∧
      (harvestFlow animal rid nearbyResources world).2 = world) ∧
    (∀ (animal : Animal) (wres : WorldResource),
      world.find? (fun r => r.id == rid) = some wres →
      res.harvestable = true → 0 < res.quantity →
      Real.sqrt ((res.position.x - animal.position.x) ^ 2 +
        (res.position.z - animal.position.z) ^ 2) ≤ HARVEST_RADIUS →
      ¬ (animal.stats.energy <
        15 + (if res.type = "stone" then (10 : ℝ) else 0)) →
      ¬ (animal.inventory.maxCapacity < animal.inventory.currentWeight +
        min ((⌊1 + (animal.dna.strength / 100 +
            animal.dna.intelligence / 100) / 2 * 2⌋ : ℤ) : ℝ) res.quantity *
          (if res.type = "stone" then (3 : ℝ)
           else if res.type = "wood" then 2 else 1)) →
      wres.harvestable = true → wres.quantity = res.quantity →
      0 ≤ animal.dna.strength → 0 ≤ animal.dna.intelligence →
      ∃ item : InventoryItem,
        (harvestFlow animal rid nearbyResources world).1.success = true ∧
        (harvestFlow animal rid nearbyResources world).1.harvestedItem =
          some item ∧
        0 < item.quantity ∧ item.quantity ≤ res.quantity ∧
        ((harvestFlow animal rid nearbyResources world).2.find?
          (fun r => r.id == rid)) =
          some { wres with quantity := wres.quantity - item.quantity }) := by
  constructor
  · intro animal hdist
    have hsucc : (executeHarvest animal (some rid) nearbyResources).success =
        false := by
      simp only [executeHarvest, hfind]
      by_cases hg : (! res.harvestable : Bool) ∨ res.quantity ≤ 0
      · rw [if_pos hg]
      · rw [if_neg hg, if_pos hdist]
    constructor
    · simp [harvestFlow, hsucc]
    · simp [harvestFlow, hsucc]
  · intro animal wres hw hhv hq hdist henergy hcap hwh hwq hstr hint
    have hg1 : ¬ ((! res.harvestable : Bool) ∨ res.quantity ≤ 0) := by
      refine not_or.mpr ⟨?_, not_le.mpr hq⟩
      simp [hhv]
    have hg2 : ¬ (HARVEST_RADIUS < Real.sqrt
        ((res.position.x - animal.position.x) ^ 2 +
          (res.position.z - animal.position.z) ^ 2)) := not_lt.mpr hdist
    have hbase1 : (1 : ℝ) ≤ ((⌊1 + (animal.dna.strength / 100 +
        animal.dna.intelligence / 100) / 2 * 2⌋ : ℤ) : ℝ) := by
      have h1 : (1 : ℝ) ≤ 1 + (animal.dna.strength / 100 +
          animal.dna.intelligence / 100) / 2 * 2 := by nlinarith
      have h2 : (1 : ℤ) ≤ ⌊1 + (animal.dna.strength / 100 +
          animal.dna.intelligence / 100) / 2 * 2⌋ := by
        rw [Int.le_floor]
        exact_mod_cast h1
      exact_mod_cast h2
    have hamt : min ((⌊1 + (animal.dna.strength / 100 +
        animal.dna.intelligence / 100) / 2 * 2⌋ : ℤ) : ℝ) res.quantity ≤
        res.quantity := min_le_right _ _
    have hamt0 : 0 < min ((⌊1 + (animal.dna.strength / 100 +
        animal.dna.intelligence / 100) / 2 * 2⌋ : ℤ) : ℝ) res.quantity :=
      lt_min (lt_of_lt_of_le one_pos hbase1) hq
    have hsucc : (executeHarvest animal (some rid)
        nearbyResources).success = true := by
      simp only [executeHarvest, hfind]
      rw [if_neg hg1, if_neg hg2, if_neg henergy, if_neg hcap]
    have hitem : (executeHarvest animal (some rid)
        nearbyResources).harvestedItem = some
        { id := "item_harvested",
          type := if res.type = "berries" then "food" else res.type,
          name := res.type,
          quantity := min ((⌊1 + (animal.dna.strength / 100 +
            animal.dna.intelligence / 100) / 2 * 2⌋ : ℤ) : ℝ) res.quantity,
          quality := res.quality,
          harvestedAt := 0 } := by
      simp only [executeHarvest, hfind]
      rw [if_neg hg1, if_neg hg2, if_neg henergy, if_neg hcap]
    have hrid2 : (executeHarvest animal (some rid)
        nearbyResources).resourceId = some rid := by
      simp only [executeHarvest, hfind]
      rw [if_neg hg1, if_neg hg2, if_neg henergy, if_neg hcap]
    refine ⟨{ id := "item_harvested",
              type := if res.type = "berries" then "food" else res.type,
              name := res.type,
              quantity := min ((⌊1 + (animal.dna.strength / 100 +
                animal.dna.intelligence / 100) / 2 * 2⌋ : ℤ) : ℝ) res.quantity,
              quality := res.quality,
              harvestedAt := 0 }, ?_, ?_, hamt0, hamt, ?_⟩
    · simp [harvestFlow, hsucc, hitem, hrid2]
    · simp [harvestFlow, hsucc, hitem, hrid2]
    · have hflow : (harvestFlow animal rid nearbyResources world).2 =
          (harvestResource world rid (min ((⌊1 + (animal.dna.strength / 100 +
            animal.dna.intelligence / 100) / 2 * 2⌋ : ℤ) : ℝ)
            res.quantity)).2 := by
        simp [harvestFlow, hsucc, hitem, hrid2]
      rw [hflow]
      have hpw : (wres.id == rid) = true := by
        have h := List.find?_some (p := fun r : WorldResource => r.id == rid) hw
        simpa using h
      have hgw : ¬ ((! wres.harvestable : Bool) ∨ wres.quantity <
          min ((⌊1 + (animal.dna.strength / 100 +
            animal.dna.intelligence / 100) / 2 * 2⌋ : ℤ) : ℝ) res.quantity) := by
        refine not_or.mpr ⟨?_, ?_⟩
        · simp [hwh]
        · rw [hwq]
          exact not_lt.mpr hamt
      simp only [harvestResource, hw, if_neg hgw]
      exact updateFirst_find? _ _ world wres hw hpw

/-- Witness for C5: the quantity-5 water node, with the agent at distance
5 (failure, registry untouched) and moved to distance 3 (success, node
reduced by the harvested quantity). -/
theorem executeHarvest_flow_spec_witness :
    ((harvestFlow animalC5far "water_1" [resourceC5] [worldResC5]).1.success
        = false ∧
      (harvestFlow animalC5far "water_1" [resourceC5] [worldResC5]).2 =
        [worldResC5]) ∧
    (∃ item : InventoryItem,
      (harvestFlow animalC5near "water_1" [resourceC5]
        [worldResC5]).1.success = true ∧
      (harvestFlow animalC5near "water_1" [resourceC5]
        [worldResC5]).1.harvestedItem = some item ∧
      0 < item.quantity ∧ item.quantity ≤ resourceC5.quantity ∧
      ((harvestFlow animalC5near "water_1" [resourceC5]
        [worldResC5]).2.find? (fun r => r.id == "water_1")) =
        some { worldResC5 with
               quantity := worldResC5.quantity - item.quantity }) := by
  have h := executeHarvest_flow_spec "water_1" [resourceC5] [worldResC5]
    resourceC5 (List.find?_cons_of_pos _ (by simp [resourceC5]))
  constructor
  · refine h.1 animalC5far ?_
    have hx : (resourceC5.position.x - animalC5far.position.x) ^ 2 +
        (resourceC5.position.z - animalC5far.position.z) ^ 2 = 5 ^ 2 := by
      norm_num [resourceC5, animalC5far]
    rw [hx, Real.sqrt_sq (by norm_num : (0 : ℝ) ≤ 5)]
    norm_num [HARVEST_RADIUS]
  · refine h.2 animalC5near worldResC5
      (List.find?_cons_of_pos _ (by simp [worldResC5])) rfl
      (by norm_num [resourceC5]) ?_ ?_ ?_ rfl rfl
      (by norm_num [animalC5near, animalC5far, dnaMid])
      (by norm_num [animalC5near, animalC5far, dnaMid])
    · have hx : (resourceC5.position.x - animalC5near.position.x) ^ 2 +
          (resourceC5.position.z - animalC5near.position.z) ^ 2 = 3 ^ 2 := by
        norm_num [resourceC5, animalC5near, animalC5far]
      rw [hx, Real.sqrt_sq (by norm_num : (0 : ℝ) ≤ 3)]
      norm_num [HARVEST_RADIUS]
    · norm_num [animalC5near, animalC5far, resourceC5]
      rw [if_neg (by decide : ¬ ("water" : String) = "stone")]
      norm_num
    · norm_num [animalC5near, animalC5far, resourceC5, dnaMid]
      rw [if_neg (by decide : ¬ ("water" : String) = "stone"),
        if_neg (by decide : ¬ ("water" : String) = "wood")]
      norm_num

theorem clampLow_range (x c : ℝ) (_hx0 : 0 ≤ x) (hx : x ≤ 100) (hc : 0 ≤ c) :
    0 ≤ max 0 (x - c) ∧ max 0 (x - c) ≤ 100 :=
  ⟨le_max_left _ _, max_le (by norm_num) (by linarith)⟩

theorem clampHigh_range (x g : ℝ) (hx0 : 0 ≤ x) (_hx : x ≤ 100) (hg : 0 ≤ g) :
    0 ≤ min 100 (x + g) ∧ min 100 (x + g) ≤ 100 :=
  ⟨le_min (by norm_num) (by linarith), min_le_left _ _⟩

theorem applyStatChanges_in_range (stats : AnimalStats) (sc : StatChanges)
    (hs : StatsInRange stats)
    (h1 : OptInRange sc.health) (h2 : OptInRange sc.hunger)
    (h3 : OptInRange sc.energy) (h4 : OptInRange sc.happiness)
    (h5 : OptInRange sc.thirst) :
    StatsInRange (applyStatChanges stats sc) := by
  obtain ⟨a1, a2, a3, a4, a5, a6, a7, a8, a9, a10⟩ := hs
  refine ⟨?_, ?_, ?_, ?_, ?_, ?_, ?_, ?_, ?_, ?_⟩
  · cases hx : sc.health with
    | none => simpa [applyStatChanges, hx] using a1
    | some v =>
      have hb := h1
      rw [hx] at hb
      simpa [applyStatChanges, hx] using hb.1
  · cases hx : sc.health with
    | none => simpa [applyStatChanges, hx] using a2
    | some v =>
      have hb := h1
      rw [hx] at hb
      simpa [applyStatChanges, hx] using hb.2
  · cases hx : sc.hunger with
    | none => simpa [applyStatChanges, hx] using a3
    | some v =>
      have hb := h2
      rw [hx] at hb
      simpa [applyStatChanges, hx] using hb.1
  · cases hx : sc.hunger with
    | none => simpa [applyStatChanges, hx] using a4
    | some v =>
      have hb := h2
      rw [hx] at hb
      simpa [applyStatChanges, hx] using hb.2
  · cases hx : sc.energy with
    | none => simpa [applyStatChanges, hx] using a5
    | some v =>
      have hb := h3
      rw [hx] at hb
      simpa [applyStatChanges, hx] using hb.1
  · cases hx : sc.energy with
    | none => simpa [applyStatChanges, hx] using a6
    | some v =>
      have hb := h3
      rw [hx] at hb
      simpa [applyStatChanges, hx] using hb.2
  · cases hx : sc.happiness with
    | none => simpa [applyStatChanges, hx] using a7
    | some v =>
      have hb := h4
      rw [hx] at hb
      simpa [applyStatChanges, hx] using hb.1
  · cases hx : sc.happiness with
    | none => simpa [applyStatChanges, hx] using a8
    | some v =>
      have hb := h4
      rw [hx] at hb
      simpa [applyStatChanges, hx] using hb.2
  · cases hx : sc.thirst with
    | none => simpa [applyStatChanges, hx] using a9
    | some v =>
      have hb := h5
      rw [hx] at hb
      simpa [applyStatChanges, hx] using hb.1
  · cases hx : sc.thirst with
    | none => simpa [applyStatChanges, hx] using a10
    | some v =>
      have hb := h5
      rw [hx] at hb
      simpa [applyStatChanges, hx] using hb.2

theorem updateFromActionResult_stats (animal : Animal) (result : ActionResult)
    (s : String) :
    (updateFromActionResult animal result s).stats =
      match result.statChanges with
      | some sc => applyStatChanges animal.stats sc
      | none => animal.stats := by
  unfold updateFromActionResult
  cases result.statChanges <;> cases result.newPosition <;> rfl

theorem updateFromActionResult_fixed (animal : Animal)
    (result : ActionResult) (s : String) :
    (updateFromActionResult animal result s).dna = animal.dna ∧
    (updateFromActionResult animal result s).inventory = animal.inventory ∧
    (updateFromActionResult animal result s).age = animal.age := by
  unfold updateFromActionResult
  cases result.statChanges <;> cases result.newPosition <;>
    exact ⟨rfl, rfl, rfl⟩

theorem applyAgentOp_fixed (animal : Animal) (op : AgentOp) :
    (applyAgentOp animal op).dna = animal.dna ∧
    (applyAgentOp animal op).inventory = animal.inventory ∧
    (applyAgentOp animal op).age = animal.age := by
  cases op with
  | degrade m => exact ⟨rfl, rfl, rfl⟩
  | act inv s => exact updateFromActionResult_fixed _ _ _

theorem applyAgentOp_preserves_wf (animal : Animal) (op : AgentOp)
    (hwf : WFAnimal animal) : WFAnimal (applyAgentOp animal op) := by
  obtain ⟨hd, hi, ha⟩ := applyAgentOp_fixed animal op
  unfold WFAnimal at hwf ⊢
  rw [hd, hi, ha]
  exact hwf

set_option maxHeartbeats 1600000 in
theorem applyAgentOp_stats_in_range (animal : Animal) (op : AgentOp)
    (hwf : WFAnimal animal) (hs : StatsInRange animal.stats)
    (hop : WFAgentOp op) :
    StatsInRange (applyAgentOp animal op).stats := by
  obtain ⟨hdna, hinv, hage0, hage1⟩ := hwf
  obtain ⟨hint, hagi, hstr, hsoc, hcur, hres, hplay, hsize⟩ := hdna
  obtain ⟨s1, s2, s3, s4, s5, s6, s7, s8, s9, s10⟩ := hs
  have hs' : StatsInRange animal.stats :=
    ⟨s1, s2, s3, s4, s5, s6, s7, s8, s9, s10⟩
  cases op with
  | degrade m =>
    have hm : 0 ≤ m := hop
    have h1 : (0 : ℝ) ≤ 1 + animal.age * 0.5 := by linarith
    have h2 : (0 : ℝ) ≤ 1 - animal.dna.resilience / 100 * 0.3 := by
      have := hres.2
      linarith
    have hd : 0 ≤ m * ((1 + animal.age * 0.5) *
        (1 - animal.dna.resilience / 100 * 0.3)) :=
      mul_nonneg hm (mul_nonneg h1 h2)
    show StatsInRange (degradeStats animal m)
    refine ⟨le_max_left _ _, max_le (by norm_num) (by nlinarith),
      le_min (by norm_num) (by nlinarith), min_le_left _ _,
      le_max_left _ _, max_le (by norm_num) (by nlinarith),
      le_max_left _ _, max_le (by norm_num) (by nlinarith),
      le_min (by norm_num) (by nlinarith), min_le_left _ _⟩
  | act inv s =>
    simp only [applyAgentOp, executeAction]
    cases inv with
    | idle =>
      rw [updateFromActionResult_stats]
      have hsc : (executeIdle animal).statChanges = some
          { energy := some (min 100 (animal.stats.energy + 3)),
            happiness := some (min 100 (animal.stats.happiness + 1)) } := rfl
      rw [hsc]
      exact applyStatChanges_in_range _ _ hs' trivial trivial
        (clampHigh_range _ _ s5 s6 (by norm_num))
        (clampHigh_range _ _ s7 s8 (by norm_num)) trivial
    | moving tx tz sp =>
      rw [updateFromActionResult_stats]
      by_cases hc : animal.stats.energy <
          min (5 * (Real.sqrt ((tx - animal.position.x) ^ 2 +
            (tz - animal.position.z) ^ 2) / 10) * animal.dna.size)
            animal.stats.energy
      · have hsc : (executeMove animal tx tz sp).statChanges = none := by
          simp only [executeMove]
          rw [if_pos hc]
        rw [hsc]
        exact hs'
      · have hsc : (executeMove animal tx tz sp).statChanges = some
            { energy := some (max 0 (animal.stats.energy -
              min (5 * (Real.sqrt ((tx - animal.position.x) ^ 2 +
                (tz - animal.position.z) ^ 2) / 10) * animal.dna.size)
                animal.stats.energy)) } := by
          simp only [executeMove]
          rw [if_neg hc]
        rw [hsc]
        have hcost : 0 ≤ min (5 * (Real.sqrt ((tx - animal.position.x) ^ 2 +
            (tz - animal.position.z) ^ 2) / 10) * animal.dna.size)
            animal.stats.energy :=
          le_min (mul_nonneg (mul_nonneg (by norm_num)
            (div_nonneg (Real.sqrt_nonneg _) (by norm_num)))
            (by linarith [hsize.1])) s5
        exact applyStatChanges_in_range _ _ hs' trivial trivial
          (clampLow_range _ _ s5 s6 hcost) trivial trivial
    | eating =>
      rw [updateFromActionResult_stats]
      cases hfind : animal.inventory.items.find?
          (fun item => decide (item.type = "food" ∧ 0 < item.quantity)) with
      | none =>
        have hsc : (executeEat animal).statChanges = none := by
          simp only [executeEat]
          rw [hfind]
        rw [hsc]
        exact hs'
      | some foodItem =>
        have hq := hinv foodItem (List.mem_of_find?_eq_some hfind)
        have hsc : (executeEat animal).statChanges = some
            { hunger := some (max 0 (animal.stats.hunger -
                20 * (foodItem.quality / 100)))
              energy := some (min 100 (animal.stats.energy +
                10 * (foodItem.quality / 100)))
              health := some (min 100 (animal.stats.health +
                if 1 < foodItem.quality / 100 then 5 else 2))
              happiness := some (min 100 (animal.stats.happiness + 5)) } := by
          simp only [executeEat]
          rw [hfind]
        rw [hsc]
        exact applyStatChanges_in_range _ _ hs'
          (clampHigh_range _ _ s1 s2 (by split_ifs <;> norm_num))
          (clampLow_range _ _ s3 s4 (by have := hq.1; linarith))
          (clampHigh_range _ _ s5 s6 (by have := hq.1; linarith))
          (clampHigh_range _ _ s7 s8 (by norm_num)) trivial
    | drinking =>
      rw [updateFromActionResult_stats]
      cases hfind : animal.inventory.items.find?
          (fun item => decide (item.type = "water" ∧ 0 < item.quantity)) with
      | none =>
        have hsc : (executeDrink animal).statChanges = none := by
          simp only [executeDrink]
          rw [hfind]
        rw [hsc]
        exact hs'
      | some waterItem =>
        have hq := hinv waterItem (List.mem_of_find?_eq_some hfind)
        have hsc : (executeDrink animal).statChanges = some
            { thirst := some (max 0 (animal.stats.thirst -
                25 * (waterItem.quality / 100)))
              health := some (min 100 (animal.stats.health +
                5 * (waterItem.quality / 100))) } := by
          simp only [executeDrink]
          rw [hfind]
        rw [hsc]
        exact applyStatChanges_in_range _ _ hs'
          (clampHigh_range _ _ s1 s2 (by have := hq.1; linarith))
          trivial trivial trivial
          (clampLow_range _ _ s9 s10 (by have := hq.1; linarith))
    | sleeping c sa =>
      rw [updateFromActionResult_stats]
      have hcs : 0 ≤ c ∧ 0 ≤ sa := hop
      have hsc : (executeSleep animal c sa).statChanges = some
          { energy := some (min 100 (animal.stats.energy + 40 * c))
            health := some (min 100 (animal.stats.health + 15 * sa))
            happiness := some (min 100 (animal.stats.happiness + c * 5)) } :=
        rfl
      rw [hsc]
      exact applyStatChanges_in_range _ _ hs'
        (clampHigh_range _ _ s1 s2 (by have := hcs.2; linarith)) trivial
        (clampHigh_range _ _ s5 s6 (by have := hcs.1; linarith))
        (clampHigh_range _ _ s7 s8 (by have := hcs.1; linarith)) trivial
    | playing n toy =>
      rw [updateFromActionResult_stats]
      have htoy : 0 ≤ toy := hop
      have hsc : (executePlay animal n toy).statChanges = some
          { happiness := some (min 100 (animal.stats.happiness +
              20 * (if 0 < n then (1.5 : ℝ) else 1) *
                (animal.dna.personality.playful / 100) * toy))
            energy := some (max 0 (animal.stats.energy -
              15 / (animal.dna.personality.playful / 100))) } := rfl
      rw [hsc]
      have hpm : (0 : ℝ) ≤ animal.dna.personality.playful / 100 :=
        div_nonneg (by linarith [hplay.1]) (by norm_num)
      have hsm : (0 : ℝ) ≤ if 0 < n then (1.5 : ℝ) else 1 := by
        split_ifs <;> norm_num
      exact applyStatChanges_in_range _ _ hs' trivial trivial
        (clampLow_range _ _ s5 s6 (div_nonneg (by norm_num) hpm))
        (clampHigh_range _ _ s7 s8
          (mul_nonneg (mul_nonneg (mul_nonneg (by norm_num) hsm) hpm) htoy))
        trivial
    | working d =>
      rw [updateFromActionResult_stats]
      have hd : 0 ≤ d := hop
      have heff : (0 : ℝ) ≤ (animal.dna.intelligence / 100 +
          animal.dna.strength / 100) / 2 := by
        have := hint.1
        have := hstr.1
        positivity
      by_cases hc : animal.stats.energy <
          25 * d / ((animal.dna.intelligence / 100 +
            animal.dna.strength / 100) / 2)
      · have hsc : (executeWork animal d).statChanges = none := by
          simp only [executeWork]
          rw [if_pos hc]
        rw [hsc]
        exact hs'
      · have hsc : (executeWork animal d).statChanges = some
            { energy := some (max 0 (animal.stats.energy -
                25 * d / ((animal.dna.intelligence / 100 +
                  animal.dna.strength / 100) / 2)))
              happiness := some (min 100 (animal.stats.happiness +
                10 * ((animal.dna.intelligence / 100 +
                  animal.dna.strength / 100) / 2))) } := by
          simp only [executeWork]
          rw [if_neg hc]
        rw [hsc]
        exact applyStatChanges_in_range _ _ hs' trivial trivial
          (clampLow_range _ _ s5 s6
            (div_nonneg (mul_nonneg (by norm_num) hd) heff))
          (clampHigh_range _ _ s7 s8 (mul_nonneg (by norm_num) heff)) trivial
    | exploring t fp =>
      rw [updateFromActionResult_stats]
      cases t with
      | some tt =>
        have hsc : (executeExplore animal (some tt) fp).statChanges = some
            { happiness := some (min 100 (animal.stats.happiness +
                (10 * (animal.dna.curiosity / 100) + 5)))
              energy := some (max 0 (animal.stats.energy -
                min (15 + Real.sqrt ((tt.1 - animal.position.x) ^ 2 +
                  (tt.2 - animal.position.z) ^ 2) * 2)
                  (animal.stats.energy * 0.3))) } := rfl
        rw [hsc]
        have hsq : (0 : ℝ) ≤ Real.sqrt ((tt.1 - animal.position.x) ^ 2 + (tt.2 - animal.position.z) ^ 2) := Real.sqrt_nonneg _
        have hcm : (0 : ℝ) ≤ animal.dna.curiosity / 100 :=
          div_nonneg (by linarith [hcur.1]) (by norm_num)
        exact applyStatChanges_in_range _ _ hs' trivial trivial
          (clampLow_range _ _ s5 s6
            (le_min (by linarith) (by linarith)))
          (clampHigh_range _ _ s7 s8 (by linarith)) trivial
      | none =>
        have hsc : (executeExplore animal none fp).statChanges = some
            { happiness := some (min 100 (animal.stats.happiness +
                (10 * (animal.dna.curiosity / 100) + 3)))
              energy := some (max 0 (animal.stats.energy -
                min (15 + Real.sqrt ((fp.x - animal.position.x) ^ 2 +
                  (fp.z - animal.position.z) ^ 2) * 2)
                  (animal.stats.energy * 0.3))) } := rfl
        rw [hsc]
        have hsq : (0 : ℝ) ≤ Real.sqrt ((fp.x - animal.position.x) ^ 2 + (fp.z - animal.position.z) ^ 2) := Real.sqrt_nonneg _
        have hcm : (0 : ℝ) ≤ animal.dna.curiosity / 100 :=
          div_nonneg (by linarith [hcur.1]) (by norm_num)
        exact applyStatChanges_in_range _ _ hs' trivial trivial
          (clampLow_range _ _ s5 s6
            (le_min (by linarith) (by linarith)))
          (clampHigh_range _ _ s7 s8 (by linarith)) trivial
    | socializing n =>
      rw [updateFromActionResult_stats]
      have hsc : (executeSocialize animal n).statChanges = some
          { happiness := some (min 100 (animal.stats.happiness +
              25 * (animal.dna.social / 100) * (1 + (n : ℝ) * 0.2)))
            energy := some (max 0 (animal.stats.energy - 5)) } := rfl
      rw [hsc]
      have hn : (0 : ℝ) ≤ (n : ℝ) := Nat.cast_nonneg n
      exact applyStatChanges_in_range _ _ hs' trivial trivial
        (clampLow_range _ _ s5 s6 (by norm_num))
        (clampHigh_range _ _ s7 s8
          (mul_nonneg (mul_nonneg (by norm_num)
            (div_nonneg (by linarith [hsoc.1]) (by norm_num)))
            (by linarith))) trivial
    | mating p =>
      rw [updateFromActionResult_stats]
      cases p with
      | false =>
        have hsc : (executeMate animal false).statChanges = none := rfl
        rw [hsc]
        exact hs'
      | true =>
        have hsc : (executeMate animal true).statChanges = some
            { happiness := some (min 100 (animal.stats.happiness + 30))
              energy := some (max 0 (animal.stats.energy - 30)) } := rfl
        rw [hsc]
        exact applyStatChanges_in_range _ _ hs' trivial trivial
          (clampLow_range _ _ s5 s6 (by norm_num))
          (clampHigh_range _ _ s7 s8 (by norm_num)) trivial
    | harvesting rid res =>
      rw [updateFromActionResult_stats]
      cases rid with
      | none =>
        have hsc : (executeHarvest animal none res).statChanges = none := rfl
        rw [hsc]
        exact hs'
      | some r =>
        cases hfind : res.find? (fun x => x.id == r) with
        | none =>
          have hsc : (executeHarvest animal (some r) res).statChanges =
              none := by
            simp only [executeHarvest]
            rw [hfind]
          rw [hsc]
          exact hs'
        | some resource =>
          by_cases hg1 : (! resource.harvestable : Bool) ∨
              resource.quantity ≤ 0
          · have hsc : (executeHarvest animal (some r) res).statChanges =
                none := by
              simp only [executeHarvest, hfind]
              rw [if_pos hg1]
            rw [hsc]
            exact hs'
          · by_cases hg2 : HARVEST_RADIUS < Real.sqrt
                ((resource.position.x - animal.position.x) ^ 2 +
                  (resource.position.z - animal.position.z) ^ 2)
            · have hsc : (executeHarvest animal (some r) res).statChanges =
                  none := by
                simp only [executeHarvest, hfind]
                rw [if_neg hg1, if_pos hg2]
              rw [hsc]
              exact hs'
            · by_cases hg3 : animal.stats.energy <
                  15 + (if resource.type = "stone" then (10 : ℝ) else 0)
              · have hsc : (executeHarvest animal (some r) res).statChanges =
                    none := by
                  simp only [executeHarvest, hfind]
                  rw [if_neg hg1, if_neg hg2, if_pos hg3]
                rw [hsc]
                exact hs'
              · by_cases hg4 : animal.inventory.maxCapacity <
                    animal.inventory.currentWeight +
                      min ((⌊1 + (animal.dna.strength / 100 +
                        animal.dna.intelligence / 100) / 2 * 2⌋ : ℤ) : ℝ)
                        resource.quantity *
                        (if resource.type = "stone" then (3 : ℝ)
                         else if resource.type = "wood" then 2 else 1)
                · have hsc : (executeHarvest animal (some r)
                      res).statChanges = none := by
                    simp only [executeHarvest, hfind]
                    rw [if_neg hg1, if_neg hg2, if_neg hg3, if_pos hg4]
                  rw [hsc]
                  exact hs'
                · have hsc : (executeHarvest animal (some r)
                      res).statChanges = some
                      { energy := some (max 0 (animal.stats.energy -
                          (15 + if resource.type = "stone" then (10 : ℝ)
                            else 0)))
                        happiness := some (min 100
                          (animal.stats.happiness + 5)) } := by
                    simp only [executeHarvest, hfind]
                    rw [if_neg hg1, if_neg hg2, if_neg hg3, if_neg hg4]
                  rw [hsc]
                  exact applyStatChanges_in_range _ _ hs' trivial trivial
                    (clampLow_range _ _ s5 s6
                      (by split_ifs <;> norm_num))
                    (clampHigh_range _ _ s7 s8 (by norm_num)) trivial

/-- Claim C8 (amended): for an agent whose fixed data is well formed (DNA
traits in the generator ranges, inventory item qualities in 0..100, age in
0..1) and whose five stats all start in [0,100], every stat remains in
[0,100] after any sequence of stat-degradation ticks and action-result
applications through the state store, provided the action parameters lie in
their intended nonnegative ranges.  The unrestricted claim, over arbitrary
action parameters, is false: a sleep with comfort -1 drives energy below 0
(see the counterexample). -/
theorem stats_remain_in_range (animal : Animal) (ops : List AgentOp)
    (hwf : WFAnimal animal) (hs : StatsInRange animal.stats)
    (hops : ∀ op ∈ ops, WFAgentOp op) :
    StatsInRange (applyAgentOps animal ops).stats := by
  induction ops generalizing animal with
  | nil => exact hs
  | cons op rest ih =>
    have hop : WFAgentOp op := hops op (List.mem_cons_self op rest)
    have hrest : ∀ o ∈ rest, WFAgentOp o := fun o ho =>
      hops o (List.mem_cons_of_mem op ho)
    exact ih (applyAgentOp animal op)
      (applyAgentOp_preserves_wf animal op hwf)
      (applyAgentOp_stats_in_range animal op hwf hs hop) hrest

/-- Witness for C8: the concrete agent animalC8 satisfies every hypothesis,
and its stats are still in range after the concrete schedule opsC8. -/
theorem stats_remain_in_range_witness :
    WFAnimal animalC8 ∧ StatsInRange animalC8.stats ∧
      (∀ op ∈ opsC8, WFAgentOp op) ∧
      StatsInRange (applyAgentOps animalC8 opsC8).stats := by
  have hwf : WFAnimal animalC8 := by
    refine ⟨by norm_num [WFDNA, animalC8, dnaMid], ?_,
      by norm_num [animalC8], by norm_num [animalC8]⟩
    intro i hi
    simp [animalC8] at hi
  have hs : StatsInRange animalC8.stats := by
    norm_num [StatsInRange, animalC8]
  have hops : ∀ op ∈ opsC8, WFAgentOp op := by
    intro op hop
    simp only [opsC8, List.mem_cons, List.not_mem_nil, or_false] at hop
    rcases hop with h | h | h <;> subst h
    · exact zero_le_one
    · trivial
    · exact ⟨zero_le_one, zero_le_one⟩
  exact ⟨hwf, hs, hops, stats_remain_in_range animalC8 opsC8 hwf hs hops⟩

/-- Counterexample to C8 as stated: animalC8 starts with every stat in
[0,100], yet a single sleeping action with comfort parameter -1 (an
arbitrary action parameter, allowed by the claim) leaves energy at -30,
outside [0,100]: executeSleep adds 40 * comfort under a min-100 cap with no
lower clamp, and updateFromActionResult merges the value unchecked. -/
theorem stats_in_range_claim_counterexample :
    StatsInRange animalC8.stats ∧
      (applyAgentOp animalC8 (AgentOp.act
        (ActionInvocation.sleeping (-1) 1) "sleeping")).stats.energy < 0 := by
  constructor
  · norm_num [StatsInRange, animalC8]
  · have h : (applyAgentOp animalC8 (AgentOp.act
        (ActionInvocation.sleeping (-1) 1) "sleeping")).stats.energy =
        min (100 : ℝ) (10 + 40 * (-1)) := rfl
    rw [h]
    norm_num

/-- Claim C4: the decision route clamps a numeric exploration target to the
fixed 20-unit radius around the agent's position: a target within 20 units
is kept unchanged; a farther target is replaced by the point on the 20-unit
circle along the bearing of the target (the result is the position plus the
offset to the target scaled by 20 over its length, and its distance from
the position is exactly 20). -/
theorem clampExplorationTarget_spec (posX posZ targetX targetZ : ℝ) :
    (Real.sqrt ((targetX - posX) ^ 2 + (targetZ - posZ) ^ 2) ≤ 20 →
      clampExplorationTarget posX posZ targetX targetZ =
        (targetX, targetZ)) ∧
    (20 < Real.sqrt ((targetX - posX) ^ 2 + (targetZ - posZ) ^ 2) →
      clampExplorationTarget posX posZ targetX targetZ =
        (posX + 20 / Real.sqrt ((targetX - posX) ^ 2 +
            (targetZ - posZ) ^ 2) * (targetX - posX),
         posZ + 20 / Real.sqrt ((targetX - posX) ^ 2 +
            (targetZ - posZ) ^ 2) * (targetZ - posZ)) ∧
      Real.sqrt
        (((clampExplorationTarget posX posZ targetX targetZ).1 - posX) ^ 2 +
          ((clampExplorationTarget posX posZ targetX targetZ).2 - posZ) ^ 2) =
        20) := by
  constructor
  · intro hle
    simp only [clampExplorationTarget]
    rw [if_pos hle]
  · intro hgt
    have hdpos : 0 < Real.sqrt ((targetX - posX) ^ 2 +
        (targetZ - posZ) ^ 2) := lt_trans (by norm_num) hgt
    have hne : (⟨targetX - posX, targetZ - posZ⟩ : ℂ) ≠ 0 := by
      intro h0
      have h1 : targetX - posX = 0 := by
        simpa using congrArg Complex.re h0
      have h2 : targetZ - posZ = 0 := by
        simpa using congrArg Complex.im h0
      rw [h1, h2] at hdpos
      norm_num [Real.sqrt_zero] at hdpos
    have habs : Complex.abs (⟨targetX - posX, targetZ - posZ⟩ : ℂ) =
        Real.sqrt ((targetX - posX) ^ 2 + (targetZ - posZ) ^ 2) := by
      rw [Complex.abs_apply, Complex.normSq_mk]
      congr 1
      ring
    have hcos : Real.cos
        (Complex.arg (⟨targetX - posX, targetZ - posZ⟩ : ℂ)) =
        (targetX - posX) /
          Real.sqrt ((targetX - posX) ^ 2 + (targetZ - posZ) ^ 2) := by
      rw [Complex.cos_arg hne, habs]
    have hsin : Real.sin
        (Complex.arg (⟨targetX - posX, targetZ - posZ⟩ : ℂ)) =
        (targetZ - posZ) /
          Real.sqrt ((targetX - posX) ^ 2 + (targetZ - posZ) ^ 2) := by
      rw [Complex.sin_arg, habs]
    constructor
    · simp only [clampExplorationTarget]
      rw [if_neg (not_le.mpr hgt), hcos, hsin]
      simp only [Prod.mk.injEq]
      constructor <;> ring
    · simp only [clampExplorationTarget]
      rw [if_neg (not_le.mpr hgt)]
      dsimp only
      generalize Complex.arg (⟨targetX - posX, targetZ - posZ⟩ : ℂ) = a
      have hpy := Real.sin_sq_add_cos_sq a
      rw [show (posX + Real.cos a * 20 - posX) ^ 2 +
          (posZ + Real.sin a * 20 - posZ) ^ 2 = (20 : ℝ) ^ 2 from by
        nlinarith [hpy]]
      exact Real.sqrt_sq (by norm_num)

/-- Witness for C4: target (3,4) from the origin (distance 5) is kept;
target (1000,1000) from the origin (distance beyond 20) is projected to the
20-unit circle on the same bearing, at distance exactly 20. -/
theorem clampExplorationTarget_spec_witness :
    Real.sqrt (((3 : ℝ) - 0) ^ 2 + ((4 : ℝ) - 0) ^ 2) ≤ 20 ∧
    clampExplorationTarget 0 0 3 4 = (3, 4) ∧
    20 < Real.sqrt (((1000 : ℝ) - 0) ^ 2 + ((1000 : ℝ) - 0) ^ 2) ∧
    clampExplorationTarget 0 0 1000 1000 =
      (0 + 20 / Real.sqrt (((1000 : ℝ) - 0) ^ 2 + ((1000 : ℝ) - 0) ^ 2) *
          (1000 - 0),
       0 + 20 / Real.sqrt (((1000 : ℝ) - 0) ^ 2 + ((1000 : ℝ) - 0) ^ 2) *
          (1000 - 0)) ∧
    Real.sqrt (((clampExplorationTarget 0 0 1000 1000).1 - 0) ^ 2 +
      ((clampExplorationTarget 0 0 1000 1000).2 - 0) ^ 2) = 20 := by
  have h1 : Real.sqrt (((3 : ℝ) - 0) ^ 2 + ((4 : ℝ) - 0) ^ 2) ≤ 20 := by
    rw [show ((3 : ℝ) - 0) ^ 2 + ((4 : ℝ) - 0) ^ 2 = 5 ^ 2 by norm_num,
      Real.sqrt_sq (by norm_num : (0 : ℝ) ≤ 5)]
    norm_num
  have h2 : 20 < Real.sqrt (((1000 : ℝ) - 0) ^ 2 + ((1000 : ℝ) - 0) ^ 2) := by
    have h20 : (20 : ℝ) = Real.sqrt (20 ^ 2) :=
      (Real.sqrt_sq (by norm_num : (0 : ℝ) ≤ 20)).symm
    rw [h20]
    apply Real.sqrt_lt_sqrt (by norm_num)
    norm_num
  exact ⟨h1, (clampExplorationTarget_spec 0 0 3 4).1 h1, h2,
    ((clampExplorationTarget_spec 0 0 1000 1000).2 h2).1,
    ((clampExplorationTarget_spec 0 0 1000 1000).2 h2).2⟩
